import Mathlib

/-!
Verification of the W-language compiler front end (lexer, parser, type
inference, Rust code generator) against its natural-language specification.

The Rust source is shallowly embedded: each Rust function is translated to an
executable Lean definition with the same name (snake_case becomes
lowerCamelCase, and the Rust enum `Type` from ast.rs is named `Ty`, since
`Type` is reserved in Lean). Mutable state (`&mut self`) is threaded
explicitly; Rust `Option`/`Result` become `Option`/`Except`.
-/

namespace W

/-- The `Type` enum from ast.rs (named `Ty` because `Type` is reserved in Lean). -/
inductive Ty : Type where
  | int8
  | int16
  | int32
  | int64
  | int128
  | int
  | uint8
  | uint16
  | uint32
  | uint64
  | uint128
  | uint
  | float32
  | float64
  | bool
  | char
  | string
  | tuple (ts : List Ty)
  | list (t : Ty)
  | array (t : Ty) (size : Nat)
  | slice (t : Ty)
  | map (k v : Ty)
  | hashSet (t : Ty)
  | bTreeMap (k v : Ty)
  | bTreeSet (t : Ty)
  | function (params : List Ty) (ret : Ty)
  | option (t : Ty)
  | result (ok err : Ty)
  | logLevel
  | custom (name : String)
deriving Repr

/-- Structural equality on `Ty`, mirroring the derived `PartialEq` on the Rust
enum `Type`. (`DecidableEq` cannot be derived for nested inductives in this
Lean version, so it is built by hand from this Boolean test.) -/
def Ty.beq : Ty → Ty → Bool
  | .int8, .int8 => true
  | .int16, .int16 => true
  | .int32, .int32 => true
  | .int64, .int64 => true
  | .int128, .int128 => true
  | .int, .int => true
  | .uint8, .uint8 => true
  | .uint16, .uint16 => true
  | .uint32, .uint32 => true
  | .uint64, .uint64 => true
  | .uint128, .uint128 => true
  | .uint, .uint => true
  | .float32, .float32 => true
  | .float64, .float64 => true
  | .bool, .bool => true
  | .char, .char => true
  | .string, .string => true
  | .tuple ts, .tuple us => beqL ts us
  | .list a, .list b => Ty.beq a b
  | .array a n, .array b m => Ty.beq a b && n == m
  | .slice a, .slice b => Ty.beq a b
  | .map k v, .map k2 v2 => Ty.beq k k2 && Ty.beq v v2
  | .hashSet a, .hashSet b => Ty.beq a b
  | .bTreeMap k v, .bTreeMap k2 v2 => Ty.beq k k2 && Ty.beq v v2
  | .bTreeSet a, .bTreeSet b => Ty.beq a b
  | .function ps r, .function qs s => beqL ps qs && Ty.beq r s
  | .option a, .option b => Ty.beq a b
  | .result a e, .result b f => Ty.beq a b && Ty.beq e f
  | .logLevel, .logLevel => true
  | .custom n, .custom m => n == m
  | _, _ => false
where
  beqL : List Ty → List Ty → Bool
    | [], [] => true
    | a :: as, b :: bs => Ty.beq a b && beqL as bs
    | _, _ => false

example : Ty.beq (.function [.int32] .bool) (.function [.int32] .bool) = true := rfl
example : Ty.beq (.tuple [.int32]) .string = false := rfl

mutual

theorem Ty.eq_of_beq : (a b : Ty) → Ty.beq a b = true → a = b := fun a b h => by
  cases a <;> cases b <;> first
    | rfl
    | exact Bool.noConfusion h
    | skip
  case tuple.tuple ts us =>
    exact congrArg Ty.tuple (Ty.eqL_of_beqL ts us h)
  case list.list x y =>
    exact congrArg Ty.list (Ty.eq_of_beq x y h)
  case array.array x n y m =>
    replace h : (Ty.beq x y && (n == m)) = true := h
    simp only [Bool.and_eq_true, beq_iff_eq] at h
    rw [Ty.eq_of_beq x y h.1, h.2]
  case slice.slice x y =>
    exact congrArg Ty.slice (Ty.eq_of_beq x y h)
  case map.map k v k2 v2 =>
    replace h : (Ty.beq k k2 && Ty.beq v v2) = true := h
    simp only [Bool.and_eq_true] at h
    rw [Ty.eq_of_beq k k2 h.1, Ty.eq_of_beq v v2 h.2]
  case hashSet.hashSet x y =>
    exact congrArg Ty.hashSet (Ty.eq_of_beq x y h)
  case bTreeMap.bTreeMap k v k2 v2 =>
    replace h : (Ty.beq k k2 && Ty.beq v v2) = true := h
    simp only [Bool.and_eq_true] at h
    rw [Ty.eq_of_beq k k2 h.1, Ty.eq_of_beq v v2 h.2]
  case bTreeSet.bTreeSet x y =>
    exact congrArg Ty.bTreeSet (Ty.eq_of_beq x y h)
  case function.function ps r qs s =>
    replace h : (Ty.beq.beqL ps qs && Ty.beq r s) = true := h
    simp only [Bool.and_eq_true] at h
    rw [Ty.eqL_of_beqL ps qs h.1, Ty.eq_of_beq r s h.2]
  case option.option x y =>
    exact congrArg Ty.option (Ty.eq_of_beq x y h)
  case result.result x e y f =>
    replace h : (Ty.beq x y && Ty.beq e f) = true := h
    simp only [Bool.and_eq_true] at h
    rw [Ty.eq_of_beq x y h.1, Ty.eq_of_beq e f h.2]
  case custom.custom n m =>
    replace h : (n == m) = true := h
    simp only [beq_iff_eq] at h
    rw [h]

theorem Ty.eqL_of_beqL : (as bs : List Ty) → Ty.beq.beqL as bs = true → as = bs := fun as bs h => by
  cases as with
  | nil => cases bs with
    | nil => rfl
    | cons b bs => exact Bool.noConfusion h
  | cons a as => cases bs with
    | nil => exact Bool.noConfusion h
    | cons b bs =>
      replace h : (Ty.beq a b && Ty.beq.beqL as bs) = true := h
      simp only [Bool.and_eq_true] at h
      rw [Ty.eq_of_beq a b h.1, Ty.eqL_of_beqL as bs h.2]

end

mutual

theorem Ty.beq_refl : (a : Ty) → Ty.beq a a = true := fun a => by
  cases a
  case tuple ts => exact Ty.beqL_refl ts
  case list x => exact Ty.beq_refl x
  case array x n =>
    show (Ty.beq x x && (n == n)) = true
    simp [Ty.beq_refl x]
  case slice x => exact Ty.beq_refl x
  case map k v =>
    show (Ty.beq k k && Ty.beq v v) = true
    simp [Ty.beq_refl k, Ty.beq_refl v]
  case hashSet x => exact Ty.beq_refl x
  case bTreeMap k v =>
    show (Ty.beq k k && Ty.beq v v) = true
    simp [Ty.beq_refl k, Ty.beq_refl v]
  case bTreeSet x => exact Ty.beq_refl x
  case function ps r =>
    show (Ty.beq.beqL ps ps && Ty.beq r r) = true
    simp [Ty.beqL_refl ps, Ty.beq_refl r]
  case option x => exact Ty.beq_refl x
  case result x e =>
    show (Ty.beq x x && Ty.beq e e) = true
    simp [Ty.beq_refl x, Ty.beq_refl e]
  case custom n =>
    show (n == n) = true
    simp
  all_goals rfl

theorem Ty.beqL_refl : (as : List Ty) → Ty.beq.beqL as as = true := fun as => by
  cases as with
  | nil => rfl
  | cons a as =>
    show (Ty.beq a a && Ty.beq.beqL as as) = true
    simp [Ty.beq_refl a, Ty.beqL_refl as]

end

instance : DecidableEq Ty := fun a b =>
  decidable_of_iff (Ty.beq a b = true)
    ⟨Ty.eq_of_beq a b, fun h => h ▸ Ty.beq_refl a⟩

example : (Ty.tuple [.int32, .string]) ≠ Ty.int32 := by decide
example : (Ty.function [.int32] .bool) = (Ty.function [.int32] .bool) := by decide

/-- The `LogLevel` enum from ast.rs. -/
inductive LogLevel : Type where
  | debug
  | info
  | warn
  | error
deriving Repr, DecidableEq

/-- The `Operator` enum from ast.rs. -/
inductive Operator : Type where
  | add
  | subtract
  | multiply
  | divide
  | power
  | equals
  | notEquals
  | lessThan
  | greaterThan
deriving Repr, DecidableEq

/-- The `TypeAnnotation` struct from ast.rs. -/
structure TypeAnnotation where
  name : String
  type_ : Ty
deriving Repr, DecidableEq

mutual

/-- The `Expression` enum from ast.rs. `Box` indirection is dropped (Lean
inductives are already boxed); the `f64` payload of `Float` is kept as its
literal text, since no embedded function computes with the numeric value.
`Match` is named `matchE` and `Variable` is named `var` because `match` and
`variable` are Lean keywords. -/
inductive Expression : Type where
  | number (n : Int)
  | float (f : String)
  | string (s : String)
  | boolean (b : Bool)
  | tuple (elements : List Expression)
  | list (elements : List Expression)
  | map (entries : List (Expression × Expression))
  | identifier (name : String)
  | functionCall (function : Expression) (arguments : List Expression)
  | functionDefinition (name : String) (parameters : List TypeAnnotation) (body : Expression)
  | program (exprs : List Expression)
  | binaryOp (left : Expression) (operator : Operator) (right : Expression)
  | logCall (level : LogLevel) (message : Expression)
  | cond (conditions : List (Expression × Expression)) (defaultStatements : Option Expression)
  | none
  | some (value : Expression)
  | ok (value : Expression)
  | err (error : Expression)
  | matchE (value : Expression) (arms : List (Pattern × Expression))
  | lambda (parameters : List TypeAnnotation) (body : Expression)
  | structDefinition (name : String) (fields : List TypeAnnotation)
  | structInstantiation (structName : String) (fieldValues : List Expression)
deriving Repr

/-- The `Pattern` enum from ast.rs (`Variable` is named `var`). -/
inductive Pattern : Type where
  | wildcard
  | literal (e : Expression)
  | var (name : String)
  | constructor (name : String) (patterns : List Pattern)
  | tuple (ps : List Pattern)
  | list (ps : List Pattern)
deriving Repr

end

/-- The `TypeError` enum from type_inference.rs. -/
inductive TypeError : Type where
  | typeMismatch (expected actual : Ty) (context : String)
  | undefinedIdentifier (name : String)
  | arityMismatch (function : String) (expected actual : Nat)
  | cannotInfer (context : String)
  | undefinedStruct (name : String)
  | fieldCountMismatch (structName : String) (expected actual : Nat)
deriving Repr, DecidableEq

/-- First-match lookup in an association list. Models `HashMap` lookup: `bind`
and `define_struct` prepend, so the most recent insert for a key wins, exactly
like `HashMap::insert` followed by `HashMap::get`. -/
def lookupAssoc {A : Type} : List (String × A) → String → Option A
  | [], _ => Option.none
  | (k, v) :: rest, key => if k = key then Option.some v else lookupAssoc rest key

/-- The `TypeEnvironment` struct from type_inference.rs. The two `HashMap`s
are modelled as association lists (see `lookupAssoc`). -/
structure TypeEnvironment where
  bindings : List (String × Ty)
  structs : List (String × List TypeAnnotation)
deriving Repr, DecidableEq

/-- `TypeEnvironment::new`. -/
def TypeEnvironment.new : TypeEnvironment := ⟨[], []⟩

/-- `TypeEnvironment::bind`. -/
def TypeEnvironment.bind (env : TypeEnvironment) (name : String) (ty : Ty) : TypeEnvironment :=
  { env with bindings := (name, ty) :: env.bindings }

/-- `TypeEnvironment::lookup`. -/
def TypeEnvironment.lookup (env : TypeEnvironment) (name : String) : Option Ty :=
  lookupAssoc env.bindings name

/-- `TypeEnvironment::define_struct`. -/
def TypeEnvironment.defineStruct (env : TypeEnvironment) (name : String)
    (fields : List TypeAnnotation) : TypeEnvironment :=
  { env with structs := (name, fields) :: env.structs }

/-- `TypeEnvironment::lookup_struct`. -/
def TypeEnvironment.lookupStruct (env : TypeEnvironment) (name : String) :
    Option (List TypeAnnotation) :=
  lookupAssoc env.structs name

/-- `TypeEnvironment::child` (a full clone of the environment). -/
def TypeEnvironment.child (env : TypeEnvironment) : TypeEnvironment := env

/-- `is_numeric` from type_inference.rs. -/
def isNumeric : Ty → Bool
  | .int8 | .int16 | .int32 | .int64 | .int128 | .int
  | .uint8 | .uint16 | .uint32 | .uint64 | .uint128 | .uint
  | .float32 | .float64 => true
  | _ => false

/-- The parameter-binding loop at the top of the `FunctionDefinition` arm of
`TypeInference::infer_expression` (`for param in parameters { child_env.bind(..) }`). -/
def bindParameters (env : TypeEnvironment) (parameters : List TypeAnnotation) : TypeEnvironment :=
  parameters.foldl (fun e p => e.bind p.name p.type_) env

mutual

/-- `TypeInference::infer_expression` from type_inference.rs. The `&mut self`
environment is threaded explicitly: the result pairs the inferred type with
the (possibly mutated) environment. Loops over child expressions become the
mutually recursive helper functions below. -/
def inferExpression (env : TypeEnvironment) : Expression → Except TypeError (Ty × TypeEnvironment)
  | .number _ => .ok (.int32, env)
  | .float _ => .ok (.float64, env)
  | .string _ => .ok (.string, env)
  | .boolean _ => .ok (.bool, env)
  | .tuple elements =>
      match inferExprList env elements with
      | .error e => .error e
      | .ok (types, env1) => .ok (.tuple types, env1)
  | .list elements =>
      match elements with
      | [] => .error (.cannotInfer "empty list")
      | e :: rest =>
        match inferExpression env e with
        | .error err => .error err
        | .ok (firstType, env1) =>
          match checkListElems firstType env1 rest with
          | .error err => .error err
          | .ok env2 => .ok (.list firstType, env2)
  | .identifier name =>
      match env.lookup name with
      | Option.some t => .ok (t, env)
      | Option.none => .error (.undefinedIdentifier name)
  | .binaryOp left operator right =>
      match inferExpression env left with
      | .error e => .error e
      | .ok (leftType, env1) =>
        match inferExpression env1 right with
        | .error e => .error e
        | .ok (rightType, env2) =>
          match operator with
          | .add | .subtract | .multiply | .divide | .power =>
            if !(isNumeric leftType) then
              .error (.typeMismatch .int32 leftType "arithmetic operation")
            else if leftType ≠ rightType then
              .error (.typeMismatch leftType rightType "arithmetic operation")
            else
              .ok (leftType, env2)
          | .equals | .notEquals | .lessThan | .greaterThan =>
            if leftType ≠ rightType then
              .error (.typeMismatch leftType rightType "comparison operation")
            else
              .ok (.bool, env2)
  | .functionDefinition name parameters body =>
      let childEnv := bindParameters env.child parameters
      match inferExpression childEnv body with
      | .error e => .error e
      | .ok (returnType, _) =>
        let paramTypes := parameters.map (fun p => p.type_)
        let funcType := Ty.function paramTypes returnType
        .ok (funcType, env.bind name funcType)
  | .functionCall function arguments =>
      match function with
      | .identifier name =>
        -- Rust `match name.as_str()` over string literals is an equality
        -- dispatch; it is embedded as the equivalent if-else chain.
        if name = "Print" then .ok (.tuple [], env)
        else if name = "Tuple" then
            match inferExprList env arguments with
            | .error e => .error e
            | .ok (types, env1) => .ok (.tuple types, env1)
        else if name = "Map" ∨ name = "Filter" then
            if arguments.length ≠ 2 then
              .error (.arityMismatch name 2 arguments.length)
            else
              .ok (.list .int32, env)
        else if name = "Fold" then inferFoldInit name env arguments
        else
            match env.lookupStruct name with
            | Option.some fields =>
                if fields.length ≠ arguments.length then
                  .error (.fieldCountMismatch name fields.length arguments.length)
                else
                  match checkStructArgs env arguments fields with
                  | .error e => .error e
                  | .ok env1 => .ok (.custom name, env1)
            | Option.none =>
                match env.lookup name with
                | Option.some funcType =>
                    match funcType with
                    | .function paramTypes returnType =>
                        if paramTypes.length ≠ arguments.length then
                          .error (.arityMismatch name paramTypes.length arguments.length)
                        else
                          match checkCallArgs name env arguments paramTypes with
                          | .error e => .error e
                          | .ok env1 => .ok (returnType, env1)
                    | _ =>
                        .error (.typeMismatch (.function [] .int32) funcType
                          (name ++ " is not a function"))
                | Option.none => .error (.undefinedIdentifier name)
      | _ => .error (.cannotInfer "complex function expression")
  | .structDefinition name fields =>
      .ok (.tuple [], env.defineStruct name fields)
  | .none => .ok (.option .int32, env)
  | .some value =>
      match inferExpression env value with
      | .error e => .error e
      | .ok (innerType, env1) => .ok (.option innerType, env1)
  | .ok value =>
      match inferExpression env value with
      | .error e => .error e
      | .ok (okType, env1) => .ok (.result okType .string, env1)
  | .err error =>
      match inferExpression env error with
      | .error e => .error e
      | .ok (errType, env1) => .ok (.result .int32 errType, env1)
  | .matchE value arms =>
      match inferExpression env value with
      | .error e => .error e
      | .ok (valueType, env1) =>
        match arms with
        | [] => .error (.cannotInfer "match with no arms")
        | _ :: _ =>
          match inferMatchArms env1 valueType Option.none arms with
          | .error e => .error e
          | .ok (Option.some t) => .ok (t, env1)
          | .ok Option.none =>
              -- `result_type.unwrap()`: unreachable, since `arms` is nonempty
              -- and every loop iteration sets `result_type` to `Some`.
              .error (.cannotInfer "match with no arms")
  | .cond conditions defaultStatements =>
      match inferCondPairs Option.none env conditions with
      | .error e => .error e
      | .ok (resultType, env1) =>
        match defaultStatements with
        | Option.some dflt =>
          match inferExpression env1 dflt with
          | .error e => .error e
          | .ok (defaultType, env2) =>
            match resultType with
            | Option.none => .ok (defaultType, env2)
            | Option.some expected =>
              if expected ≠ defaultType then
                .error (.typeMismatch expected defaultType "cond default branch")
              else
                .ok (expected, env2)
        | Option.none =>
          match resultType with
          | Option.some t => .ok (t, env1)
          | Option.none => .ok (.tuple [], env1)
  | .program _ => .error (.cannotInfer "program")
  | .lambda _ _ => .error (.cannotInfer "lambda")
  | .logCall _ _ => .ok (.tuple [], env)
  | .map _ => .error (.cannotInfer "map literal")
  | .structInstantiation _ _ => .error (.cannotInfer "struct instantiation")

/-- The `"Fold"` branch of the `FunctionCall` arm: three arguments are
required (`ArityMismatch` otherwise) and the result type is the inferred type
of the second argument (`arguments[1]`, the initial accumulator). -/
def inferFoldInit (name : String) (env : TypeEnvironment) :
    List Expression → Except TypeError (Ty × TypeEnvironment)
  | [_, a1, _] => inferExpression env a1
  | args => .error (.arityMismatch name 3 args.length)

/-- The element loop of the `Tuple` arm (and of the built-in `"Tuple"` call):
infers every element in order, threading the environment. -/
def inferExprList (env : TypeEnvironment) :
    List Expression → Except TypeError (List Ty × TypeEnvironment)
  | [] => .ok ([], env)
  | e :: rest =>
      match inferExpression env e with
      | .error err => .error err
      | .ok (t, env1) =>
        match inferExprList env1 rest with
        | .error err => .error err
        | .ok (ts, env2) => .ok (t :: ts, env2)

/-- The `for elem in &elements[1..]` loop of the `List` arm: each element must
infer to the first element type. -/
def checkListElems (firstType : Ty) (env : TypeEnvironment) :
    List Expression → Except TypeError TypeEnvironment
  | [] => .ok env
  | e :: rest =>
      match inferExpression env e with
      | .error err => .error err
      | .ok (elemType, env1) =>
        if elemType ≠ firstType then
          .error (.typeMismatch firstType elemType "list elements")
        else
          checkListElems firstType env1 rest

/-- The argument/field zip loop of the struct-constructor branch of the
`FunctionCall` arm. -/
def checkStructArgs (env : TypeEnvironment) :
    List Expression → List TypeAnnotation → Except TypeError TypeEnvironment
  | [], _ => .ok env
  | _, [] => .ok env
  | arg :: args, field :: fields =>
      match inferExpression env arg with
      | .error err => .error err
      | .ok (argType, env1) =>
        if argType ≠ field.type_ then
          .error (.typeMismatch field.type_ argType ("field " ++ field.name))
        else
          checkStructArgs env1 args fields

/-- The argument/parameter zip loop of the user-defined-function branch of the
`FunctionCall` arm. -/
def checkCallArgs (name : String) (env : TypeEnvironment) :
    List Expression → List Ty → Except TypeError TypeEnvironment
  | [], _ => .ok env
  | _, [] => .ok env
  | arg :: args, expectedType :: rest =>
      match inferExpression env arg with
      | .error err => .error err
      | .ok (argType, env1) =>
        if argType ≠ expectedType then
          .error (.typeMismatch expectedType argType ("argument to " ++ name))
        else
          checkCallArgs name env1 args rest

/-- The arm loop of the `Match` arm of `infer_expression`: checks each pattern
against the scrutinee type in a fresh child environment, infers the arm result
there, and unifies all arm result types (the first arm fixes the contract). -/
def inferMatchArms (selfEnv : TypeEnvironment) (valueType : Ty) (resultType : Option Ty) :
    List (Pattern × Expression) → Except TypeError (Option Ty)
  | [] => .ok resultType
  | (pattern, resultExpr) :: rest =>
      match checkPattern selfEnv pattern valueType selfEnv.child with
      | .error e => .error e
      | .ok childEnv =>
        match inferExpression childEnv resultExpr with
        | .error e => .error e
        | .ok (armResultType, _) =>
          match resultType with
          | Option.none => inferMatchArms selfEnv valueType (Option.some armResultType) rest
          | Option.some expected =>
            if expected ≠ armResultType then
              .error (.typeMismatch expected armResultType "match arm result")
            else
              inferMatchArms selfEnv valueType (Option.some expected) rest

/-- The condition-pair loop of the `Cond` arm of `infer_expression`. -/
def inferCondPairs (resultType : Option Ty) (env : TypeEnvironment) :
    List (Expression × Expression) → Except TypeError (Option Ty × TypeEnvironment)
  | [] => .ok (resultType, env)
  | (condition, statements) :: rest =>
      match inferExpression env condition with
      | .error e => .error e
      | .ok (condType, env1) =>
        if condType ≠ Ty.bool then
          .error (.typeMismatch .bool condType "condition")
        else
          match inferExpression env1 statements with
          | .error e => .error e
          | .ok (stmtType, env2) =>
            match resultType with
            | Option.none => inferCondPairs (Option.some stmtType) env2 rest
            | Option.some expected =>
              if expected ≠ stmtType then
                .error (.typeMismatch expected stmtType "cond branch")
              else
                inferCondPairs (Option.some expected) env2 rest

/-- `TypeInference::check_pattern` from type_inference.rs: `selfEnv` is the
read-only `&self` environment (used to type literal patterns), `env` is the
`&mut` child environment receiving variable bindings. -/
def checkPattern (selfEnv : TypeEnvironment) (pattern : Pattern) (expectedType : Ty)
    (env : TypeEnvironment) : Except TypeError TypeEnvironment :=
  match pattern with
  | .wildcard => .ok env
  | .literal expr =>
      match inferExpression selfEnv expr with
      | .error e => .error e
      | .ok (literalType, _) =>
        if literalType ≠ expectedType then
          .error (.typeMismatch expectedType literalType "pattern literal")
        else
          .ok env
  | .var name => .ok (env.bind name expectedType)
  | .constructor name patterns =>
      match name with
      | "Some" =>
          match expectedType with
          | .option innerType =>
              match patterns with
              | [p] => checkPattern selfEnv p innerType env
              | _ => .error (.cannotInfer "Some pattern must have exactly one argument")
          | _ => .error (.typeMismatch (.option .int32) expectedType "Some pattern")
      | "None" =>
          match expectedType with
          | .option _ =>
              if patterns.isEmpty then
                .ok env
              else
                .error (.cannotInfer "None pattern should have no arguments")
          | _ => .error (.typeMismatch (.option .int32) expectedType "None pattern")
      | "Ok" =>
          match expectedType with
          | .result okType _ =>
              match patterns with
              | [p] => checkPattern selfEnv p okType env
              | _ => .error (.cannotInfer "Ok pattern must have exactly one argument")
          | _ => .error (.typeMismatch (.result .int32 .string) expectedType "Ok pattern")
      | "Err" =>
          match expectedType with
          | .result _ errType =>
              match patterns with
              | [p] => checkPattern selfEnv p errType env
              | _ => .error (.cannotInfer "Err pattern must have exactly one argument")
          | _ => .error (.typeMismatch (.result .int32 .string) expectedType "Err pattern")
      | _ => .error (.cannotInfer ("Unknown constructor: " ++ name))
  | .tuple patterns =>
      match expectedType with
      | .tuple types =>
          if patterns.length ≠ types.length then
            .error (.typeMismatch expectedType (.tuple [])
              ("tuple pattern length mismatch: expected " ++ toString types.length ++
                ", got " ++ toString patterns.length))
          else
            checkPatternsZip selfEnv patterns types env
      | _ => .error (.typeMismatch (.tuple []) expectedType "tuple pattern")
  | .list patterns =>
      match expectedType with
      | .list elementType => checkPatternsAll selfEnv patterns elementType env
      | _ => .error (.typeMismatch (.list .int32) expectedType "list pattern")

/-- The pattern/type zip loop of the `Tuple` case of `check_pattern`. -/
def checkPatternsZip (selfEnv : TypeEnvironment) :
    List Pattern → List Ty → TypeEnvironment → Except TypeError TypeEnvironment
  | [], _, env => .ok env
  | _, [], env => .ok env
  | p :: ps, t :: ts, env =>
      match checkPattern selfEnv p t env with
      | .error e => .error e
      | .ok env1 => checkPatternsZip selfEnv ps ts env1

/-- The pattern loop of the `List` case of `check_pattern`: every pattern is
checked against the element type. -/
def checkPatternsAll (selfEnv : TypeEnvironment) :
    List Pattern → Ty → TypeEnvironment → Except TypeError TypeEnvironment
  | [], _, env => .ok env
  | p :: ps, elementType, env =>
      match checkPattern selfEnv p elementType env with
      | .error e => .error e
      | .ok env1 => checkPatternsAll selfEnv ps elementType env1

end

/-- `TypeInference::check_program`: infers each top-level expression in order,
threading the environment, and discards the types. -/
def checkProgram (env : TypeEnvironment) :
    List Expression → Except TypeError TypeEnvironment
  | [] => .ok env
  | e :: rest =>
      match inferExpression env e with
      | .error err => .error err
      | .ok (_, env1) => checkProgram env1 rest

example :
    inferExpression TypeEnvironment.new (.list [.number 1, .number 2]) =
      .ok (.list .int32, TypeEnvironment.new) := rfl
example :
    inferExpression TypeEnvironment.new (.list [.number 1, .string "x"]) =
      .error (.typeMismatch .int32 .string "list elements") := rfl

/-- The `Token` enum from lexer.rs.

The `Underscore` variant is *modelled from the spec*: parser.rs matches on
`Token::Underscore` and the crate tests expect `Lexer::new("_")` to produce
it, but the lexer source under src/ lacks the variant and the lexing rule for
the character `_`. The spec lists the wildcard `_` among the fixed keyword
tokens, so the variant and its rule (next character `_` lexes to
`Underscore`) are reconstructed here from the spec. -/
inductive Token : Type where
  | identifier (s : String)
  | leftBracket
  | rightBracket
  | leftBrace
  | rightBrace
  | leftParen
  | rightParen
  | comma
  | colon
  | define
  | number (n : Int)
  | float (f : String)
  | string (s : String)
  | boolean (b : Bool)
  | plus
  | minus
  | multiply
  | divide
  | power
  | equals
  | notEquals
  | lessThan
  | greaterThan
  | logDebug
  | logInfo
  | logWarn
  | logError
  | none
  | some
  | ok
  | err
  | underscore
deriving Repr, DecidableEq

/-- The identifier-continuation test from `Lexer::read_identifier`
(alphabetic, digit, or underscore). `Char.isAlpha` is the ASCII restriction
of Rust `char::is_alphabetic`; every input in this development is ASCII. -/
def isIdentChar (c : Char) : Bool :=
  c.isAlpha || c.isDigit || c == '_'

/-- The whitespace-skipping inner loop of `Lexer::skip_whitespace`. The `gas`
parameter is an upper bound on loop iterations (the position strictly
increases each iteration, so `input.length + 1` always suffices); it exists
only to make the recursion structural. -/
def wsRun (input : List Char) : Nat → Nat → Nat
  | 0, pos => pos
  | gas + 1, pos =>
      if pos < input.length ∧ (input.getD pos ' ').isWhitespace then
        wsRun input gas (pos + 1)
      else pos

/-- The comment-closing scan of `Lexer::skip_whitespace` (find the first
`*)`); `gas` as in `wsRun`. -/
def commentEndGo (input : List Char) : Nat → Nat → Nat
  | 0, pos => pos
  | gas + 1, pos =>
      if pos + 1 < input.length then
        if input.getD pos ' ' = '*' ∧ input.getD (pos + 1) ' ' = ')' then
          pos + 2
        else
          commentEndGo input gas (pos + 1)
      else pos

/-- The outer loop of `Lexer::skip_whitespace` (alternate whitespace runs and
`(* ... *)` comments); `gas` as in `wsRun`. -/
def skipWhitespaceGo (input : List Char) : Nat → Nat → Nat
  | 0, pos => pos
  | gas + 1, pos =>
      let p := wsRun input (input.length + 1) pos
      if p + 1 < input.length ∧ input.getD p ' ' = '(' ∧ input.getD (p + 1) ' ' = '*' then
        skipWhitespaceGo input gas (commentEndGo input (input.length + 1) (p + 2))
      else p

/-- `Lexer::skip_whitespace`: returns the new position. -/
def skipWhitespace (input : List Char) (pos : Nat) : Nat :=
  skipWhitespaceGo input (input.length + 1) pos

/-- The collection loop of `Lexer::read_identifier`; `gas` as in `wsRun`. -/
def readIdentifierGo (input : List Char) : Nat → Nat → String → String × Nat
  | 0, pos, acc => (acc, pos)
  | gas + 1, pos, acc =>
      if pos < input.length ∧ isIdentChar (input.getD pos ' ') then
        readIdentifierGo input gas (pos + 1) (acc.push (input.getD pos ' '))
      else (acc, pos)

/-- `Lexer::read_identifier`. -/
def readIdentifier (input : List Char) (pos : Nat) : String × Nat :=
  readIdentifierGo input (input.length + 1) pos ""

/-- The digit-collection loop of `Lexer::read_number`; `gas` as in `wsRun`. -/
def readNumberGo (input : List Char) : Nat → Nat → String → String × Nat
  | 0, pos, acc => (acc, pos)
  | gas + 1, pos, acc =>
      if pos < input.length ∧ (input.getD pos ' ').isDigit then
        readNumberGo input gas (pos + 1) (acc.push (input.getD pos ' '))
      else (acc, pos)

/-- Decimal value of a digit string (helper for `parseI32OrZero`). -/
def digitsToNatGo : List Char → Nat → Nat
  | [], acc => acc
  | c :: cs, acc => digitsToNatGo cs (acc * 10 + (c.toNat - '0'.toNat))

/-- `number.parse::<i32>().unwrap_or(0)` applied to a digit-only string: the
parse fails exactly when the value overflows `i32`, in which case the result
defaults to `0`. -/
def parseI32OrZero (s : String) : Int :=
  let n := digitsToNatGo s.toList 0
  if n ≤ 2147483647 then (n : Int) else 0

/-- `Lexer::read_number`. -/
def readNumber (input : List Char) (pos : Nat) : Int × Nat :=
  let r := readNumberGo input (input.length + 1) pos ""
  (parseI32OrZero r.1, r.2)

/-- The collection loop of `Lexer::read_string`; `gas` as in `wsRun`. -/
def readStringGo (input : List Char) : Nat → Nat → String → String × Nat
  | 0, pos, acc => (acc, pos)
  | gas + 1, pos, acc =>
      if pos < input.length ∧ input.getD pos ' ' ≠ '"' then
        readStringGo input gas (pos + 1) (acc.push (input.getD pos ' '))
      else
        -- consume the closing quote if present
        (acc, if pos < input.length then pos + 1 else pos)

/-- `Lexer::read_string` (position on the opening quote). -/
def readString (input : List Char) (pos : Nat) : String × Nat :=
  readStringGo input (input.length + 1) (pos + 1) ""

/-- The keyword table of the alphabetic branch of `Lexer::next_token`. -/
def keywordToken (identifier : String) : Token :=
  match identifier with
  | "LogDebug" => .logDebug
  | "LogInfo" => .logInfo
  | "LogWarn" => .logWarn
  | "LogError" => .logError
  | "true" => .boolean true
  | "false" => .boolean false
  | "None" => .none
  | "Some" => .some
  | "Ok" => .ok
  | "Err" => .err
  | _ => .identifier identifier

/-- `Lexer::next_token`: returns the token (or `none` for end of input or an
unrecognized character) together with the new cursor position. The `'_' →
Underscore` rule is modelled from the spec (see `Token`). -/
def nextToken (input : List Char) (pos0 : Nat) : Option Token × Nat :=
  let pos := skipWhitespace input pos0
  if pos ≥ input.length then (Option.none, pos)
  else
    let c := input.getD pos ' '
    if c = '[' then (Option.some .leftBracket, pos + 1)
    else if c = ']' then (Option.some .rightBracket, pos + 1)
    else if c = '{' then (Option.some .leftBrace, pos + 1)
    else if c = '}' then (Option.some .rightBrace, pos + 1)
    else if c = '(' then (Option.some .leftParen, pos + 1)
    else if c = ')' then (Option.some .rightParen, pos + 1)
    else if c = ':' then
      if pos + 1 < input.length ∧ input.getD (pos + 1) ' ' = '=' then
        (Option.some .define, pos + 2)
      else
        (Option.some .colon, pos + 1)
    else if c = ',' then (Option.some .comma, pos + 1)
    else if c = '+' then (Option.some .plus, pos + 1)
    else if c = '-' then (Option.some .minus, pos + 1)
    else if c = '*' then (Option.some .multiply, pos + 1)
    else if c = '/' then (Option.some .divide, pos + 1)
    else if c = '^' then (Option.some .power, pos + 1)
    else if c = '=' then
      if pos + 1 < input.length ∧ input.getD (pos + 1) ' ' = '=' then
        (Option.some .equals, pos + 2)
      else
        (Option.none, pos + 1)
    else if c = '!' then
      if pos + 1 < input.length ∧ input.getD (pos + 1) ' ' = '=' then
        (Option.some .notEquals, pos + 2)
      else
        (Option.none, pos + 1)
    else if c = '<' then (Option.some .lessThan, pos + 1)
    else if c = '>' then (Option.some .greaterThan, pos + 1)
    else if c = '"' then
      let r := readString input pos
      (Option.some (.string r.1), r.2)
    else if c = '_' then (Option.some .underscore, pos + 1)
    else if c.isAlpha then
      let r := readIdentifier input pos
      (Option.some (keywordToken r.1), r.2)
    else if c.isDigit then
      let r := readNumber input pos
      (Option.some (.number r.1), r.2)
    else (Option.none, pos)

example : (nextToken "Match[5".toList 0).1 = Option.some (Token.identifier "Match") := rfl
example : (nextToken "_".toList 0).1 = Option.some Token.underscore := rfl
example : (nextToken ":= 3".toList 0).1 = Option.some Token.define := rfl
example : (nextToken "(* c *) 7".toList 0).1 = Option.some (Token.number 7) := rfl

/-- The `ArgumentOrParameter` helper enum from parser.rs. -/
inductive ArgumentOrParameter : Type where
  | expression (e : Expression)
  | parameter (p : TypeAnnotation)
deriving Repr

/-- The `Parser` struct from parser.rs: the lexer (character vector plus
cursor) and the one-token lookahead `current_token`. -/
structure ParserState where
  input : List Char
  pos : Nat
  current : Option Token
deriving Repr

/-- `Parser::advance`: pull the next token from the lexer. -/
def advance (st : ParserState) : ParserState :=
  let r := nextToken st.input st.pos
  { st with pos := r.2, current := r.1 }

/-- `Parser::new`: load the first token. -/
def ParserState.new (s : String) : ParserState :=
  let input := s.toList
  let r := nextToken input 0
  ⟨input, r.2, r.1⟩

/-- `Lexer::peek_token` as used by the parser: the token after
`current_token`, without advancing. -/
def peekToken (st : ParserState) : Option Token := (nextToken st.input st.pos).1

/-- `Parser::expect_token`. -/
def expectToken (expected : Token) (st : ParserState) : Option Unit × ParserState :=
  if st.current = Option.some expected then (Option.some (), advance st)
  else (Option.none, st)

/-- The operator table of the `while` loop in `Parser::parse_binary_operation`
(`_ => break` becomes `none`). -/
def tokenToOperator : Token → Option Operator
  | .plus => Option.some .add
  | .minus => Option.some .subtract
  | .multiply => Option.some .multiply
  | .divide => Option.some .divide
  | .power => Option.some .power
  | .equals => Option.some .equals
  | .notEquals => Option.some .notEquals
  | .lessThan => Option.some .lessThan
  | .greaterThan => Option.some .greaterThan
  | _ => Option.none

/-- The primitive-type table of `Parser::parse_type`. -/
def primTy : String → Option Ty
  | "Int8" => Option.some .int8
  | "Int16" => Option.some .int16
  | "Int32" => Option.some .int32
  | "Int64" => Option.some .int64
  | "Int128" => Option.some .int128
  | "Int" => Option.some .int
  | "UInt8" => Option.some .uint8
  | "UInt16" => Option.some .uint16
  | "UInt32" => Option.some .uint32
  | "UInt64" => Option.some .uint64
  | "UInt128" => Option.some .uint128
  | "UInt" => Option.some .uint
  | "Float32" => Option.some .float32
  | "Float64" => Option.some .float64
  | "Bool" => Option.some .bool
  | "Char" => Option.some .char
  | "String" => Option.some .string
  | "int" => Option.some .int32
  | "float" => Option.some .float64
  | "string" => Option.some .string
  | "bool" => Option.some .bool
  | "char" => Option.some .char
  | _ => Option.none

/-- `filter_map` keeping only parameter-shaped items (the `Define` branch of
`Parser::parse_function_or_call`). -/
def paramsOf (items : List ArgumentOrParameter) : List TypeAnnotation :=
  items.filterMap fun item =>
    match item with
    | .parameter p => Option.some p
    | .expression _ => Option.none

/-- `filter_map` keeping only expression-shaped items (the call branch of
`Parser::parse_function_or_call`). -/
def exprsOf (items : List ArgumentOrParameter) : List Expression :=
  items.filterMap fun item =>
    match item with
    | .expression e => Option.some e
    | .parameter _ => Option.none

mutual

/-- `Parser::parse_expression` from parser.rs. All parser functions are
embedded with uniform shape `fuel → state → (result option × state)`: the
returned state is the mutated `&mut self`, also on failure (the source
sometimes continues from a partially-consumed state, e.g. the fallback from
`parse_function_or_call` to `parse_binary_operation`). The `fuel` argument
makes the mutual recursion structural; every recursive call passes `fuel` and
each body strips one unit, so any terminating parse succeeds for all
sufficiently large fuel, and concrete claims are evaluated at ample fuel. -/
def parseExpression : Nat → ParserState → Option Expression × ParserState
  | 0, st => (Option.none, st)
  | fuel + 1, st =>
    match st.current with
    | Option.some (.identifier id) =>
      if id = "Cond" then parseCondExpression fuel (advance st)
      else if id = "Match" then parseMatchExpression fuel (advance st)
      else if id = "Function" then parseLambdaExpression fuel (advance st)
      else
        let isFunctionSyntax :=
          match peekToken st with
          | Option.some .leftBracket => true
          | _ => false
        if isFunctionSyntax then
          match parseFunctionOrCall fuel st with
          | (Option.some funcOrCall, st1) => (Option.some funcOrCall, st1)
          | (Option.none, st1) => parseBinaryOperation fuel st1
        else parseBinaryOperation fuel st
    | _ => parseBinaryOperation fuel st

/-- `Parser::parse_function_or_call`. -/
def parseFunctionOrCall : Nat → ParserState → Option Expression × ParserState
  | 0, st => (Option.none, st)
  | fuel + 1, st =>
    match st.current with
    | Option.some (.identifier name) =>
      let st1 := advance st
      match st1.current with
      | Option.some .leftBracket =>
        let st2 := advance st1
        match parseItems fuel st2 [] with
        | (Option.none, st3) => (Option.none, st3)
        | (Option.some items, st3) =>
          match st3.current with
          | Option.some .define =>
            let st4 := advance st3
            match parseExpression fuel st4 with
            | (Option.none, st5) => (Option.none, st5)
            | (Option.some body, st5) =>
                (Option.some (.functionDefinition name (paramsOf items) body), st5)
          | _ => (Option.some (.functionCall (.identifier name) (exprsOf items)), st3)
      | _ => (Option.none, st1)
    | _ => (Option.none, st)

/-- The bracket-contents loop of `Parser::parse_function_or_call` (collects
`ArgumentOrParameter` items up to the closing `]`, which it consumes). -/
def parseItems : Nat → ParserState → List ArgumentOrParameter →
    Option (List ArgumentOrParameter) × ParserState
  | 0, st, _ => (Option.none, st)
  | fuel + 1, st, acc =>
    match st.current with
    | Option.some .rightBracket => (Option.some acc, advance st)
    | Option.some .comma => parseItems fuel (advance st) acc
    | _ =>
      match parseArgumentOrParameter fuel st with
      | (Option.some item, st1) => parseItems fuel st1 (acc ++ [item])
      | (Option.none, st1) => (Option.none, st1)

/-- `Parser::parse_argument_or_parameter`. -/
def parseArgumentOrParameter : Nat → ParserState → Option ArgumentOrParameter × ParserState
  | 0, st => (Option.none, st)
  | fuel + 1, st =>
    match st.current with
    | Option.some (.identifier name) =>
      let nextIsColon :=
        match peekToken st with
        | Option.some .colon => true
        | _ => false
      if nextIsColon then
        let st1 := advance (advance st)
        match parseType fuel st1 with
        | (Option.some ty, st2) =>
            (Option.some (.parameter ⟨name, ty⟩), st2)
        | (Option.none, st2) =>
          -- parse_type failed: fall through to the general-expression path
          -- from the already-mutated state, as the source does
          match parseExpression fuel st2 with
          | (Option.some e, st3) => (Option.some (.expression e), st3)
          | (Option.none, st3) => (Option.none, st3)
      else
        match parseExpression fuel st with
        | (Option.some e, st1) => (Option.some (.expression e), st1)
        | (Option.none, st1) => (Option.none, st1)
    | _ =>
      match parseExpression fuel st with
      | (Option.some e, st1) => (Option.some (.expression e), st1)
      | (Option.none, st1) => (Option.none, st1)

/-- `Parser::parse_binary_operation`. -/
def parseBinaryOperation : Nat → ParserState → Option Expression × ParserState
  | 0, st => (Option.none, st)
  | fuel + 1, st =>
    match parsePrimary fuel st with
    | (Option.none, st1) => (Option.none, st1)
    | (Option.some left, st1) => parseBinOpRest fuel left st1

/-- The operator `while` loop of `Parser::parse_binary_operation`:
left-associates, with no precedence tiers. -/
def parseBinOpRest : Nat → Expression → ParserState → Option Expression × ParserState
  | 0, _, st => (Option.none, st)
  | fuel + 1, left, st =>
    match st.current with
    | Option.some token =>
      match tokenToOperator token with
      | Option.some operator =>
        let st1 := advance st
        match parsePrimary fuel st1 with
        | (Option.none, st2) => (Option.none, st2)
        | (Option.some right, st2) =>
            parseBinOpRest fuel (.binaryOp left operator right) st2
      | Option.none => (Option.some left, st)
    | Option.none => (Option.some left, st)

/-- `Parser::parse_primary`. -/
def parsePrimary : Nat → ParserState → Option Expression × ParserState
  | 0, st => (Option.none, st)
  | fuel + 1, st =>
    match st.current with
    | Option.some (.number n) => (Option.some (.number n), advance st)
    | Option.some (.float f) => (Option.some (.float f), advance st)
    | Option.some (.string s) => (Option.some (.string s), advance st)
    | Option.some (.boolean b) => (Option.some (.boolean b), advance st)
    | Option.some (.identifier id) =>
      if id = "Cond" then parseCondExpression fuel (advance st)
      else (Option.some (.identifier id), advance st)
    | Option.some .leftParen => parseTuple fuel st
    | Option.some .leftBracket => parseList fuel st
    | Option.some .leftBrace => parseMap fuel st
    | Option.some .logDebug => parseLogCall fuel LogLevel.debug (advance st)
    | Option.some .logInfo => parseLogCall fuel LogLevel.info (advance st)
    | Option.some .logWarn => parseLogCall fuel LogLevel.warn (advance st)
    | Option.some .logError => parseLogCall fuel LogLevel.error (advance st)
    | Option.some .none => (Option.some .none, advance st)
    | Option.some .some => parseSomeExpression fuel (advance st)
    | Option.some .ok => parseOkExpression fuel (advance st)
    | Option.some .err => parseErrExpression fuel (advance st)
    | _ => (Option.none, st)

/-- `Parser::parse_cond_expression` (entered with `Cond` already consumed). -/
def parseCondExpression : Nat → ParserState → Option Expression × ParserState
  | 0, st => (Option.none, st)
  | fuel + 1, st =>
    match st.current with
    | Option.some .leftBracket => parseCondItems fuel (advance st) [] Option.none
    | _ => (Option.none, st)

/-- The bracket-pair loop of `parse_cond_expression`: a two-expression bracket
is a condition pair, a one-expression bracket is the default (the last one
wins silently). -/
def parseCondItems : Nat → ParserState → List (Expression × Expression) →
    Option Expression → Option Expression × ParserState
  | 0, st, _, _ => (Option.none, st)
  | fuel + 1, st, conditions, dflt =>
    match st.current with
    | Option.some .rightBracket =>
        (Option.some (.cond conditions dflt), advance st)
    | Option.some .leftBracket =>
      let st1 := advance st
      match parseExpression fuel st1 with
      | (Option.none, st2) => (Option.none, st2)
      | (Option.some firstExpr, st2) =>
        match st2.current with
        | Option.some .rightBracket =>
            parseCondItems fuel (advance st2) conditions (Option.some firstExpr)
        | _ =>
          match parseExpression fuel st2 with
          | (Option.none, st3) => (Option.none, st3)
          | (Option.some statements, st3) =>
            match st3.current with
            | Option.some .rightBracket =>
                parseCondItems fuel (advance st3)
                  (conditions ++ [(firstExpr, statements)]) dflt
            | _ => (Option.none, st3)
    | _ => (Option.none, st)

/-- `Parser::parse_match_expression` (entered with `Match` already consumed). -/
def parseMatchExpression : Nat → ParserState → Option Expression × ParserState
  | 0, st => (Option.none, st)
  | fuel + 1, st =>
    match st.current with
    | Option.some .leftBracket =>
      let st1 := advance st
      match parseExpression fuel st1 with
      | (Option.none, st2) => (Option.none, st2)
      | (Option.some value, st2) =>
        match st2.current with
        | Option.some .comma => parseMatchArms fuel (advance st2) value []
        | _ => (Option.none, st2)
    | _ => (Option.none, st)

/-- The arm loop of `parse_match_expression`. -/
def parseMatchArms : Nat → ParserState → Expression → List (Pattern × Expression) →
    Option Expression × ParserState
  | 0, st, _, _ => (Option.none, st)
  | fuel + 1, st, value, acc =>
    match st.current with
    | Option.some .rightBracket => (Option.some (.matchE value acc), advance st)
    | Option.some .leftBracket =>
      let st1 := advance st
      match parsePattern fuel st1 with
      | (Option.none, st2) => (Option.none, st2)
      | (Option.some pattern, st2) =>
        match st2.current with
        | Option.some .comma =>
          let st3 := advance st2
          match parseExpression fuel st3 with
          | (Option.none, st4) => (Option.none, st4)
          | (Option.some result, st4) =>
            match st4.current with
            | Option.some .rightBracket =>
              let st5 := advance st4
              let st6 := if st5.current = Option.some Token.comma then advance st5 else st5
              parseMatchArms fuel st6 value (acc ++ [(pattern, result)])
            | _ => (Option.none, st4)
        | _ => (Option.none, st2)
    | _ => (Option.none, st)

/-- `Parser::parse_lambda_expression` (entered with `Function` already
consumed). -/
def parseLambdaExpression : Nat → ParserState → Option Expression × ParserState
  | 0, st => (Option.none, st)
  | fuel + 1, st =>
    match st.current with
    | Option.some .leftBracket =>
      let st1 := advance st
      match st1.current with
      | Option.some .leftBrace => parseLambdaParams fuel (advance st1) []
      | _ => (Option.none, st1)
    | _ => (Option.none, st)

/-- The parameter loop of `parse_lambda_expression` plus the tail of that
function (closing brace, comma, body, closing bracket). A parameter without a
type annotation gets the placeholder type `Int32`. -/
def parseLambdaParams : Nat → ParserState → List TypeAnnotation →
    Option Expression × ParserState
  | 0, st, _ => (Option.none, st)
  | fuel + 1, st, acc =>
    match st.current with
    | Option.some .rightBrace =>
      let st1 := advance st
      match st1.current with
      | Option.some .comma =>
        let st2 := advance st1
        match parseExpression fuel st2 with
        | (Option.none, st3) => (Option.none, st3)
        | (Option.some body, st3) =>
          match st3.current with
          | Option.some .rightBracket => (Option.some (.lambda acc body), advance st3)
          | _ => (Option.none, st3)
      | _ => (Option.none, st1)
    | Option.some (.identifier name) =>
      let st1 := advance st
      match st1.current with
      | Option.some .colon =>
        let st2 := advance st1
        match parseType fuel st2 with
        | (Option.none, st3) => (Option.none, st3)
        | (Option.some paramType, st3) =>
          let st4 := if st3.current = Option.some Token.comma then advance st3 else st3
          parseLambdaParams fuel st4 (acc ++ [⟨name, paramType⟩])
      | _ =>
        let st2 := if st1.current = Option.some Token.comma then advance st1 else st1
        parseLambdaParams fuel st2 (acc ++ [⟨name, Ty.int32⟩])
    | _ => (Option.none, st)

/-- `Parser::parse_pattern`. -/
def parsePattern : Nat → ParserState → Option Pattern × ParserState
  | 0, st => (Option.none, st)
  | fuel + 1, st =>
    match st.current with
    | Option.some .underscore => (Option.some .wildcard, advance st)
    | Option.some (.number n) => (Option.some (.literal (.number n)), advance st)
    | Option.some (.string s) => (Option.some (.literal (.string s)), advance st)
    | Option.some (.boolean b) => (Option.some (.literal (.boolean b)), advance st)
    | Option.some .none => (Option.some (.constructor "None" []), advance st)
    | Option.some .some => parseUnaryCtorPattern fuel "Some" (advance st)
    | Option.some .ok => parseUnaryCtorPattern fuel "Ok" (advance st)
    | Option.some .err => parseUnaryCtorPattern fuel "Err" (advance st)
    | Option.some (.identifier id) =>
      let st1 := advance st
      match st1.current with
      | Option.some .leftBracket => parseCtorPatterns fuel (advance st1) id []
      | _ => (Option.some (.var id), st1)
    | Option.some .leftParen => parseTuplePatterns fuel (advance st) []
    | Option.some .leftBracket => parseListPatterns fuel (advance st) []
    | _ => (Option.none, st)

/-- The shared body of the `Some`/`Ok`/`Err` cases of `parse_pattern` (the
source repeats it verbatim three times; here it is one function taking the
constructor name). -/
def parseUnaryCtorPattern : Nat → String → ParserState → Option Pattern × ParserState
  | 0, _, st => (Option.none, st)
  | fuel + 1, name, st =>
    match st.current with
    | Option.some .leftBracket =>
      match parsePattern fuel (advance st) with
      | (Option.none, st2) => (Option.none, st2)
      | (Option.some pattern, st2) =>
        match st2.current with
        | Option.some .rightBracket =>
            (Option.some (.constructor name [pattern]), advance st2)
        | _ => (Option.none, st2)
    | _ => (Option.none, st)

/-- The argument loop of the identifier-constructor case of `parse_pattern`. -/
def parseCtorPatterns : Nat → ParserState → String → List Pattern →
    Option Pattern × ParserState
  | 0, st, _, _ => (Option.none, st)
  | fuel + 1, st, name, acc =>
    match st.current with
    | Option.some .rightBracket => (Option.some (.constructor name acc), advance st)
    | _ =>
      match parsePattern fuel st with
      | (Option.none, st1) => (Option.none, st1)
      | (Option.some p, st1) =>
        match st1.current with
        | Option.some .comma => parseCtorPatterns fuel (advance st1) name (acc ++ [p])
        | Option.some .rightBracket =>
            (Option.some (.constructor name (acc ++ [p])), advance st1)
        | _ => (Option.none, st1)

/-- The element loop of the tuple case of `parse_pattern`. -/
def parseTuplePatterns : Nat → ParserState → List Pattern → Option Pattern × ParserState
  | 0, st, _ => (Option.none, st)
  | fuel + 1, st, acc =>
    match st.current with
    | Option.some .rightParen => (Option.some (.tuple acc), advance st)
    | _ =>
      match parsePattern fuel st with
      | (Option.none, st1) => (Option.none, st1)
      | (Option.some p, st1) =>
        match st1.current with
        | Option.some .comma => parseTuplePatterns fuel (advance st1) (acc ++ [p])
        | Option.some .rightParen => (Option.some (.tuple (acc ++ [p])), advance st1)
        | _ => (Option.none, st1)

/-- The element loop of the list case of `parse_pattern`. -/
def parseListPatterns : Nat → ParserState → List Pattern → Option Pattern × ParserState
  | 0, st, _ => (Option.none, st)
  | fuel + 1, st, acc =>
    match st.current with
    | Option.some .rightBracket => (Option.some (.list acc), advance st)
    | _ =>
      match parsePattern fuel st with
      | (Option.none, st1) => (Option.none, st1)
      | (Option.some p, st1) =>
        match st1.current with
        | Option.some .comma => parseListPatterns fuel (advance st1) (acc ++ [p])
        | Option.some .rightBracket => (Option.some (.list (acc ++ [p])), advance st1)
        | _ => (Option.none, st1)

/-- `Parser::parse_log_call` (entered with the log keyword consumed). -/
def parseLogCall : Nat → LogLevel → ParserState → Option Expression × ParserState
  | 0, _, st => (Option.none, st)
  | fuel + 1, level, st =>
    match st.current with
    | Option.some .leftBracket =>
      match parseExpression fuel (advance st) with
      | (Option.none, st2) => (Option.none, st2)
      | (Option.some message, st2) =>
        match st2.current with
        | Option.some .rightBracket => (Option.some (.logCall level message), advance st2)
        | _ => (Option.none, st2)
    | _ => (Option.none, st)

/-- `Parser::parse_some_expression` (entered with `Some` consumed). -/
def parseSomeExpression : Nat → ParserState → Option Expression × ParserState
  | 0, st => (Option.none, st)
  | fuel + 1, st =>
    match st.current with
    | Option.some .leftBracket =>
      match parseExpression fuel (advance st) with
      | (Option.none, st2) => (Option.none, st2)
      | (Option.some value, st2) =>
        match st2.current with
        | Option.some .rightBracket => (Option.some (.some value), advance st2)
        | _ => (Option.none, st2)
    | _ => (Option.none, st)

/-- `Parser::parse_ok_expression` (entered with `Ok` consumed). -/
def parseOkExpression : Nat → ParserState → Option Expression × ParserState
  | 0, st => (Option.none, st)
  | fuel + 1, st =>
    match st.current with
    | Option.some .leftBracket =>
      match parseExpression fuel (advance st) with
      | (Option.none, st2) => (Option.none, st2)
      | (Option.some value, st2) =>
        match st2.current with
        | Option.some .rightBracket => (Option.some (.ok value), advance st2)
        | _ => (Option.none, st2)
    | _ => (Option.none, st)

/-- `Parser::parse_err_expression` (entered with `Err` consumed). -/
def parseErrExpression : Nat → ParserState → Option Expression × ParserState
  | 0, st => (Option.none, st)
  | fuel + 1, st =>
    match st.current with
    | Option.some .leftBracket =>
      match parseExpression fuel (advance st) with
      | (Option.none, st2) => (Option.none, st2)
      | (Option.some error, st2) =>
        match st2.current with
        | Option.some .rightBracket => (Option.some (.err error), advance st2)
        | _ => (Option.none, st2)
    | _ => (Option.none, st)

/-- `Parser::parse_map`. -/
def parseMap : Nat → ParserState → Option Expression × ParserState
  | 0, st => (Option.none, st)
  | fuel + 1, st =>
    match st.current with
    | Option.some .leftBrace => parseMapEntries fuel (advance st) []
    | _ => (Option.none, st)

/-- The entry loop of `parse_map`. As in the source, running out of tokens
before the closing brace still yields the map (the post-loop `advance`
consumes nothing at end of input). -/
def parseMapEntries : Nat → ParserState → List (Expression × Expression) →
    Option Expression × ParserState
  | 0, st, _ => (Option.none, st)
  | fuel + 1, st, acc =>
    match st.current with
    | Option.none => (Option.some (.map acc), advance st)
    | Option.some .rightBrace => (Option.some (.map acc), advance st)
    | Option.some _ =>
      match parseExpression fuel st with
      | (Option.none, st1) => (Option.none, st1)
      | (Option.some key, st1) =>
        match st1.current with
        | Option.some .colon =>
          let st2 := advance st1
          match parseExpression fuel st2 with
          | (Option.none, st3) => (Option.none, st3)
          | (Option.some value, st3) =>
            match st3.current with
            | Option.some .comma => parseMapEntries fuel (advance st3) (acc ++ [(key, value)])
            | Option.some .rightBrace =>
                (Option.some (.map (acc ++ [(key, value)])), advance st3)
            | _ => (Option.none, st3)
        | _ => (Option.none, st1)

/-- `Parser::parse_tuple`. -/
def parseTuple : Nat → ParserState → Option Expression × ParserState
  | 0, st => (Option.none, st)
  | fuel + 1, st =>
    match st.current with
    | Option.some .leftParen => parseTupleElems fuel (advance st) []
    | _ => (Option.none, st)

/-- The element loop of `parse_tuple` (same end-of-input behavior as
`parseMapEntries`). -/
def parseTupleElems : Nat → ParserState → List Expression →
    Option Expression × ParserState
  | 0, st, _ => (Option.none, st)
  | fuel + 1, st, acc =>
    match st.current with
    | Option.none => (Option.some (.tuple acc), advance st)
    | Option.some .rightParen => (Option.some (.tuple acc), advance st)
    | Option.some _ =>
      match parseExpression fuel st with
      | (Option.none, st1) => (Option.none, st1)
      | (Option.some elem, st1) =>
        match st1.current with
        | Option.some .comma => parseTupleElems fuel (advance st1) (acc ++ [elem])
        | Option.some .rightParen => (Option.some (.tuple (acc ++ [elem])), advance st1)
        | _ => (Option.none, st1)

/-- `Parser::parse_list`. -/
def parseList : Nat → ParserState → Option Expression × ParserState
  | 0, st => (Option.none, st)
  | fuel + 1, st =>
    match st.current with
    | Option.some .leftBracket => parseListElems fuel (advance st) []
    | _ => (Option.none, st)

/-- The element loop of `parse_list` (same end-of-input behavior as
`parseMapEntries`). -/
def parseListElems : Nat → ParserState → List Expression →
    Option Expression × ParserState
  | 0, st, _ => (Option.none, st)
  | fuel + 1, st, acc =>
    match st.current with
    | Option.none => (Option.some (.list acc), advance st)
    | Option.some .rightBracket => (Option.some (.list acc), advance st)
    | Option.some _ =>
      match parseExpression fuel st with
      | (Option.none, st1) => (Option.none, st1)
      | (Option.some elem, st1) =>
        match st1.current with
        | Option.some .comma => parseListElems fuel (advance st1) (acc ++ [elem])
        | Option.some .rightBracket => (Option.some (.list (acc ++ [elem])), advance st1)
        | _ => (Option.none, st1)

/-- `Parser::parse_type`. -/
def parseType : Nat → ParserState → Option Ty × ParserState
  | 0, st => (Option.none, st)
  | fuel + 1, st =>
    match st.current with
    | Option.some (.identifier typeName) =>
      let st1 := advance st
      match st1.current with
      | Option.some .leftBracket => parseGenericType fuel typeName st1
      | _ =>
        match primTy typeName with
        | Option.some t => (Option.some t, st1)
        | Option.none => (Option.none, st1)
    | _ => (Option.none, st)

/-- `Parser::parse_generic_type` (entered with `current` on the `[`, which it
consumes first, as in the source). -/
def parseGenericType : Nat → String → ParserState → Option Ty × ParserState
  | 0, _, st => (Option.none, st)
  | fuel + 1, typeName, st =>
    let st1 := advance st
    match typeName with
    | "Tuple" => parseGenericTupleTypes fuel st1 []
    | "List" =>
      match parseType fuel st1 with
      | (Option.none, st2) => (Option.none, st2)
      | (Option.some inner, st2) =>
        match expectToken Token.rightBracket st2 with
        | (Option.none, st3) => (Option.none, st3)
        | (Option.some _, st3) => (Option.some (.list inner), st3)
    | "Array" =>
      match parseType fuel st1 with
      | (Option.none, st2) => (Option.none, st2)
      | (Option.some inner, st2) =>
        match expectToken Token.comma st2 with
        | (Option.none, st3) => (Option.none, st3)
        | (Option.some _, st3) =>
          match st3.current with
          | Option.some (.number n) =>
            -- `*n as usize`; lexed numbers are nonnegative
            let size := n.toNat
            let st4 := advance st3
            match expectToken Token.rightBracket st4 with
            | (Option.none, st5) => (Option.none, st5)
            | (Option.some _, st5) => (Option.some (.array inner size), st5)
          | _ => (Option.none, st3)
    | "Slice" =>
      match parseType fuel st1 with
      | (Option.none, st2) => (Option.none, st2)
      | (Option.some inner, st2) =>
        match expectToken Token.rightBracket st2 with
        | (Option.none, st3) => (Option.none, st3)
        | (Option.some _, st3) => (Option.some (.slice inner), st3)
    | "HashSet" =>
      match parseType fuel st1 with
      | (Option.none, st2) => (Option.none, st2)
      | (Option.some inner, st2) =>
        match expectToken Token.rightBracket st2 with
        | (Option.none, st3) => (Option.none, st3)
        | (Option.some _, st3) => (Option.some (.hashSet inner), st3)
    | "BTreeSet" =>
      match parseType fuel st1 with
      | (Option.none, st2) => (Option.none, st2)
      | (Option.some inner, st2) =>
        match expectToken Token.rightBracket st2 with
        | (Option.none, st3) => (Option.none, st3)
        | (Option.some _, st3) => (Option.some (.bTreeSet inner), st3)
    | "Map" =>
      match parseType fuel st1 with
      | (Option.none, st2) => (Option.none, st2)
      | (Option.some key, st2) =>
        match expectToken Token.comma st2 with
        | (Option.none, st3) => (Option.none, st3)
        | (Option.some _, st3) =>
          match parseType fuel st3 with
          | (Option.none, st4) => (Option.none, st4)
          | (Option.some value, st4) =>
            match expectToken Token.rightBracket st4 with
            | (Option.none, st5) => (Option.none, st5)
            | (Option.some _, st5) => (Option.some (.map key value), st5)
    | "BTreeMap" =>
      match parseType fuel st1 with
      | (Option.none, st2) => (Option.none, st2)
      | (Option.some key, st2) =>
        match expectToken Token.comma st2 with
        | (Option.none, st3) => (Option.none, st3)
        | (Option.some _, st3) =>
          match parseType fuel st3 with
          | (Option.none, st4) => (Option.none, st4)
          | (Option.some value, st4) =>
            match expectToken Token.rightBracket st4 with
            | (Option.none, st5) => (Option.none, st5)
            | (Option.some _, st5) => (Option.some (.bTreeMap key value), st5)
    | _ => (Option.none, st1)

/-- The type loop of the `Tuple` case of `parse_generic_type`. -/
def parseGenericTupleTypes : Nat → ParserState → List Ty → Option Ty × ParserState
  | 0, st, _ => (Option.none, st)
  | fuel + 1, st, acc =>
    match st.current with
    | Option.some .rightBracket => (Option.some (.tuple acc), advance st)
    | Option.some .comma => parseGenericTupleTypes fuel (advance st) acc
    | _ =>
      match parseType fuel st with
      | (Option.none, st1) => (Option.none, st1)
      | (Option.some t, st1) => parseGenericTupleTypes fuel st1 (acc ++ [t])

end

/-- The expression-collecting loop of `Parser::parse`. -/
def parseTopLevel : Nat → ParserState → List Expression →
    Option (List Expression) × ParserState
  | 0, st, _ => (Option.none, st)
  | fuel + 1, st, acc =>
    match st.current with
    | Option.none => (Option.some acc, st)
    | Option.some _ =>
      match parseExpression fuel st with
      | (Option.some e, st1) => parseTopLevel fuel st1 (acc ++ [e])
      | (Option.none, st1) => (Option.none, st1)

/-- `Parser::parse`: parse every top-level expression, wrapping two or more in
a `Program` node; an empty input fails. -/
def parse (fuel : Nat) (st : ParserState) : Option Expression × ParserState :=
  match parseTopLevel fuel st [] with
  | (Option.none, st1) => (Option.none, st1)
  | (Option.some exprs, st1) =>
    match exprs with
    | [] => (Option.none, st1)
    | [e] => (Option.some e, st1)
    | _ => (Option.some (.program exprs), st1)

/-- Convenience: parse a source string with ample fuel (twice the character
count plus a constant bounds the parser call depth for any input that
terminates at all; concrete theorems state the fuel they use explicitly). -/
def parseString (fuel : Nat) (s : String) : Option Expression :=
  (parse fuel (ParserState.new s)).1

example : parseString 100 "2 + 3 * 4" =
    Option.some (.binaryOp (.binaryOp (.number 2) .add (.number 3)) .multiply (.number 4)) := rfl
example : parseString 100 "(1, 2)" = Option.some (.tuple [.number 1, .number 2]) := rfl
example : parseString 100 "(42,)" = Option.some (.tuple [.number 42]) := rfl

/-- The `RustCodeGenerator` struct from rust_codegen.rs (`struct_definitions`
as an association list, see `lookupAssoc`). -/
structure RustCodeGenerator where
  output : String
  indentLevel : Nat
  inFunction : Bool
  structDefinitions : List (String × List String)
deriving Repr, DecidableEq

/-- `RustCodeGenerator::new`. -/
def RustCodeGenerator.new : RustCodeGenerator := ⟨"", 0, false, []⟩

/-- `"    ".repeat(n)` (helper for `RustCodeGenerator::indent`). -/
def indentStr : Nat → String
  | 0 => ""
  | n + 1 => indentStr n ++ "    "

/-- `RustCodeGenerator::indent`. -/
def RustCodeGenerator.indent (g : RustCodeGenerator) : String := indentStr g.indentLevel

/-- The character loop of `to_snake_case` (index, previous-was-uppercase flag,
accumulator). `Char.isUpper`/`Char.toLower` are the ASCII restrictions of the
Rust predicates; all inputs here are ASCII. -/
def toSnakeCaseGo : List Char → Nat → Bool → String → String
  | [], _, _, acc => acc
  | c :: cs, i, prevIsUpper, acc =>
    if c.isUpper then
      let acc1 := if i > 0 ∧ ¬ prevIsUpper then acc.push '_' else acc
      toSnakeCaseGo cs (i + 1) true (acc1.push c.toLower)
    else
      toSnakeCaseGo cs (i + 1) false (acc.push c)

/-- `to_snake_case` from rust_codegen.rs. -/
def toSnakeCase (s : String) : String := toSnakeCaseGo s.toList 0 false ""

example : toSnakeCase "myFunc" = "my_func" := rfl
example : toSnakeCase "Point" = "point" := rfl

/-- `join(", ")`-style concatenation used throughout the code generator. -/
def joinWith (sep : String) : List String → String
  | [] => ""
  | [s] => s
  | s :: rest => s ++ sep ++ joinWith sep rest

mutual

/-- `RustCodeGenerator::type_to_rust`. -/
def typeToRust : Ty → String
  | .int8 => "i8"
  | .int16 => "i16"
  | .int32 => "i32"
  | .int64 => "i64"
  | .int128 => "i128"
  | .int => "isize"
  | .uint8 => "u8"
  | .uint16 => "u16"
  | .uint32 => "u32"
  | .uint64 => "u64"
  | .uint128 => "u128"
  | .uint => "usize"
  | .float32 => "f32"
  | .float64 => "f64"
  | .bool => "bool"
  | .char => "char"
  | .string => "String"
  | .tuple types =>
      if types.isEmpty then "()"
      else "(" ++ joinWith ", " (typeToRustList types) ++ ")"
  | .list inner => "Vec<" ++ typeToRust inner ++ ">"
  | .array inner size => "[" ++ typeToRust inner ++ "; " ++ toString size ++ "]"
  | .slice inner => "&[" ++ typeToRust inner ++ "]"
  | .map key value =>
      "std::collections::HashMap<" ++ typeToRust key ++ ", " ++ typeToRust value ++ ">"
  | .hashSet inner => "std::collections::HashSet<" ++ typeToRust inner ++ ">"
  | .bTreeMap key value =>
      "std::collections::BTreeMap<" ++ typeToRust key ++ ", " ++ typeToRust value ++ ">"
  | .bTreeSet inner => "std::collections::BTreeSet<" ++ typeToRust inner ++ ">"
  | .function params ret =>
      "fn(" ++ joinWith ", " (typeToRustList params) ++ ") -> " ++ typeToRust ret
  | .option inner => "Option<" ++ typeToRust inner ++ ">"
  | .result okType errType =>
      "Result<" ++ typeToRust okType ++ ", " ++ typeToRust errType ++ ">"
  | .logLevel => "LogLevel"
  | .custom name => name

/-- `map(type_to_rust)` over a type list (the `Tuple`/`Function` payloads). -/
def typeToRustList : List Ty → List String
  | [] => []
  | t :: ts => typeToRust t :: typeToRustList ts

end

/-- The `matches!(left_type.as_str(), "i8" | ...)` numeric-name test inside
`RustCodeGenerator::infer_return_type`. -/
def isNumericRustName (s : String) : Bool :=
  match s with
  | "i8" | "i16" | "i32" | "i64" | "i128" | "isize"
  | "u8" | "u16" | "u32" | "u64" | "u128" | "usize"
  | "f32" | "f64" => true
  | _ => false

/-- The parameter-lookup loop of the `Identifier` arm of
`RustCodeGenerator::infer_return_type`. -/
def lookupParamType : List TypeAnnotation → String → String
  | [], _ => "()"
  | p :: ps, name => if p.name = name then typeToRust p.type_ else lookupParamType ps name

mutual

/-- `RustCodeGenerator::infer_return_type`. -/
def inferReturnType : Expression → List TypeAnnotation → String
  | .number _, _ => "i32"
  | .float _, _ => "f64"
  | .string _, _ => "String"
  | .boolean _, _ => "bool"
  | .tuple elements, parameters =>
      if elements.isEmpty then "()"
      else "(" ++ joinWith ", " (inferReturnTypeList elements parameters) ++ ")"
  | .list _, _ => "Vec<i32>"
  | .map _, _ => "HashMap<String, String>"
  | .identifier name, parameters => lookupParamType parameters name
  | .binaryOp left operator _, parameters =>
      let leftType := inferReturnType left parameters
      match operator with
      | .add | .subtract | .multiply | .divide =>
          if isNumericRustName leftType then leftType else "i32"
      | _ => "i32"
  | .none, _ => "Option<()>"
  | .some value, parameters => "Option<" ++ inferReturnType value parameters ++ ">"
  | .ok value, parameters => "Result<" ++ inferReturnType value parameters ++ ", ()>"
  | .err error, parameters => "Result<(), " ++ inferReturnType error parameters ++ ">"
  | _, _ => "()"

/-- `map(infer_return_type)` over tuple elements. -/
def inferReturnTypeList : List Expression → List TypeAnnotation → List String
  | [], _ => []
  | e :: es, parameters => inferReturnType e parameters :: inferReturnTypeList es parameters

end

/-- The `{}`-versus-`{:?}` chooser applied to each `Print` argument (shared by
`generate_statement` and the `Print` arm of `generate_expression_value`).
Braces in generated text are written with the escapes `\x7b`/`\x7d`. -/
def formatPart (structDefs : List (String × List String)) : Expression → String
  | .list _ => "\x7b:?\x7d"
  | .map _ => "\x7b:?\x7d"
  | .tuple _ => "\x7b:?\x7d"
  | .functionCall function _ =>
      match function with
      | .identifier name =>
          if name = "Map" ∨ name = "Filter" ∨ (lookupAssoc structDefs name).isSome then
            "\x7b:?\x7d"
          else "\x7b\x7d"
      | _ => "\x7b\x7d"
  | _ => "\x7b\x7d"

mutual

/-- `RustCodeGenerator::generate_pattern`. -/
def genPattern : Pattern → Except Unit String
  | .wildcard => .ok "_"
  | .literal expr =>
      match expr with
      | .number n => .ok (toString n)
      | .string s => .ok ("s if s == \"" ++ s ++ "\"")
      | .boolean b => .ok (if b then "true" else "false")
      | _ => .error ()
  | .var name => .ok (toSnakeCase name)
  | .constructor name patterns =>
      match name with
      | "Some" =>
          match patterns with
          | [p] =>
              match genPattern p with
              | .error e => .error e
              | .ok inner => .ok ("Some(" ++ inner ++ ")")
          | _ => .error ()
      | "None" => .ok "None"
      | "Ok" =>
          match patterns with
          | [p] =>
              match genPattern p with
              | .error e => .error e
              | .ok inner => .ok ("Ok(" ++ inner ++ ")")
          | _ => .error ()
      | "Err" =>
          match patterns with
          | [p] =>
              match genPattern p with
              | .error e => .error e
              | .ok inner => .ok ("Err(" ++ inner ++ ")")
          | _ => .error ()
      | _ =>
          match genPatternsJoin patterns with
          | .error e => .error e
          | .ok inner => .ok (name ++ "(" ++ inner ++ ")")
  | .tuple patterns =>
      if patterns.isEmpty then .ok "()"
      else
        match genPatternsJoin patterns with
        | .error e => .error e
        | .ok inner =>
            .ok ("(" ++ inner ++ (if patterns.length = 1 then "," else "") ++ ")")
  | .list patterns =>
      match genPatternsJoin patterns with
      | .error e => .error e
      | .ok inner => .ok ("[" ++ inner ++ "]")

/-- `", "`-joined `generate_pattern` over a pattern list. -/
def genPatternsJoin : List Pattern → Except Unit String
  | [] => .ok ""
  | [p] => genPattern p
  | p :: rest =>
      match genPattern p with
      | .error e => .error e
      | .ok s =>
        match genPatternsJoin rest with
        | .error e => .error e
        | .ok ss => .ok (s ++ ", " ++ ss)

end

mutual

/-- `RustCodeGenerator::generate_expression_value` from rust_codegen.rs. The
generator state is threaded (the source mutates `indent_level` around nested
generation and reads `struct_definitions`); the produced text is returned
alongside. Braces in generated text are the escapes `\x7b`/`\x7d`. As in the
parser, `fuel` only makes the mutual recursion structural: every recursive
call strips one unit, so any value the Rust generator produces is produced
here for all sufficiently large fuel (concrete claims state their fuel). -/
def genExprValue : Nat → RustCodeGenerator → Expression → Except Unit (String × RustCodeGenerator)
  | 0, _, _ => .error ()
  | fuel + 1, g, expr =>
    match expr with
    | .program _ => .error ()
    | .number n => .ok (toString n, g)
    | .float f => .ok (f, g)
    | .string s => .ok ("\"" ++ s ++ "\".to_string()", g)
    | .boolean b => .ok (if b then "true" else "false", g)
    | .identifier name => .ok (toSnakeCase name, g)
    | .tuple elements =>
        if elements.isEmpty then .ok ("()", g)
        else
          match genExprsJoin fuel g elements with
          | .error e => .error e
          | .ok (inner, g1) =>
              .ok ("(" ++ inner ++ (if elements.length = 1 then "," else "") ++ ")", g1)
    | .list elements =>
        match genExprsJoin fuel g elements with
        | .error e => .error e
        | .ok (inner, g1) => .ok ("vec![" ++ inner ++ "]", g1)
    | .map entries =>
        let g1 := { g with indentLevel := g.indentLevel + 1 }
        match genMapInserts fuel g1 entries with
        | .error e => .error e
        | .ok (inserts, g2) =>
          let body := "\x7b\n" ++ g2.indent ++ "let mut map = std::collections::HashMap::new();\n"
            ++ inserts ++ g2.indent ++ "map\n"
          let g3 := { g2 with indentLevel := g2.indentLevel - 1 }
          .ok (body ++ g3.indent ++ "\x7d", g3)
    | .binaryOp left operator right =>
        match genExprValue fuel g left with
        | .error e => .error e
        | .ok (leftVal, g1) =>
          match genExprValue fuel g1 right with
          | .error e => .error e
          | .ok (rightVal, g2) =>
            match operator with
            | .add => .ok ("(" ++ leftVal ++ " + " ++ rightVal ++ ")", g2)
            | .subtract => .ok ("(" ++ leftVal ++ " - " ++ rightVal ++ ")", g2)
            | .multiply => .ok ("(" ++ leftVal ++ " * " ++ rightVal ++ ")", g2)
            | .divide => .ok ("(" ++ leftVal ++ " / " ++ rightVal ++ ")", g2)
            | .power =>
                .ok ("((" ++ leftVal ++ " as i32).pow(" ++ rightVal ++ " as u32))", g2)
            | .equals => .ok ("(" ++ leftVal ++ " == " ++ rightVal ++ ")", g2)
            | .notEquals => .ok ("(" ++ leftVal ++ " != " ++ rightVal ++ ")", g2)
            | .lessThan => .ok ("(" ++ leftVal ++ " < " ++ rightVal ++ ")", g2)
            | .greaterThan => .ok ("(" ++ leftVal ++ " > " ++ rightVal ++ ")", g2)
    | .functionCall function arguments =>
        match function with
        | .identifier name =>
          match name with
          | "Tuple" =>
              if arguments.isEmpty then .ok ("()", g)
              else
                match genExprsJoin fuel g arguments with
                | .error e => .error e
                | .ok (inner, g1) =>
                    .ok ("(" ++ inner ++ (if arguments.length = 1 then "," else "") ++ ")", g1)
          | "Map" =>
              match arguments with
              | [arg0, arg1] =>
                match genExprValue fuel g arg1 with
                | .error e => .error e
                | .ok (list, g1) =>
                  match arg0 with
                  | .lambda parameters body =>
                      match parameters with
                      | [param0] =>
                        match genExprValue fuel g1 body with
                        | .error e => .error e
                        | .ok (bodyStr, g2) =>
                            .ok (list ++ ".into_iter().map(|" ++ toSnakeCase param0.name ++ "| "
                              ++ bodyStr ++ ").collect::<Vec<_>>()", g2)
                      | _ => .error ()
                  | _ =>
                    match genExprValue fuel g1 arg0 with
                    | .error e => .error e
                    | .ok (func, g2) =>
                        .ok (list ++ ".into_iter().map(" ++ func ++ ").collect::<Vec<_>>()", g2)
              | _ => .error ()
          | "Filter" =>
              match arguments with
              | [arg0, arg1] =>
                match genExprValue fuel g arg0 with
                | .error e => .error e
                | .ok (func, g1) =>
                  match genExprValue fuel g1 arg1 with
                  | .error e => .error e
                  | .ok (list, g2) =>
                    match arg0 with
                    | .lambda parameters body =>
                        match parameters with
                        | [param0] =>
                          match genExprValue fuel g2 body with
                          | .error e => .error e
                          | .ok (bodyStr, g3) =>
                              .ok (list ++ ".into_iter().filter(|&" ++ toSnakeCase param0.name
                                ++ "| " ++ bodyStr ++ ").collect::<Vec<_>>()", g3)
                        | _ => .error ()
                    | _ =>
                        .ok (list ++ ".into_iter().filter(" ++ func ++ ").collect::<Vec<_>>()", g2)
              | _ => .error ()
          | "Fold" =>
              match arguments with
              | [arg0, arg1, arg2] =>
                match genExprValue fuel g arg1 with
                | .error e => .error e
                | .ok (init, g1) =>
                  match genExprValue fuel g1 arg2 with
                  | .error e => .error e
                  | .ok (list, g2) =>
                    match arg0 with
                    | .lambda parameters body =>
                        match parameters with
                        | [param0, param1] =>
                          match genExprValue fuel g2 body with
                          | .error e => .error e
                          | .ok (bodyStr, g3) =>
                              .ok (list ++ ".into_iter().fold(" ++ init ++ ", |"
                                ++ toSnakeCase param0.name ++ ", " ++ toSnakeCase param1.name
                                ++ "| " ++ bodyStr ++ ")", g3)
                        | _ => .error ()
                    | _ =>
                      match genExprValue fuel g2 arg0 with
                      | .error e => .error e
                      | .ok (func, g3) =>
                          .ok (list ++ ".into_iter().fold(" ++ init ++ ", " ++ func ++ ")", g3)
              | _ => .error ()
          | "Print" =>
              let g1 := { g with indentLevel := g.indentLevel + 1 }
              let head := "\x7b\n" ++ g1.indent ++ "println!("
              let fmt :=
                if arguments.isEmpty then ""
                else "\"" ++ joinWith " " (arguments.map (formatPart g1.structDefinitions)) ++ "\""
              match genPrintArgs fuel g1 arguments with
              | .error e => .error e
              | .ok (argStr, g2) =>
                let g3 := { g2 with indentLevel := g2.indentLevel - 1 }
                .ok (head ++ fmt ++ argStr ++ ");\n" ++ g3.indent ++ "\x7d", g3)
          | _ =>
              match lookupAssoc g.structDefinitions name with
              | Option.some fieldNames =>
                  if fieldNames.length ≠ arguments.length then .error ()
                  else
                    match genStructFieldVals fuel g fieldNames arguments with
                    | .error e => .error e
                    | .ok (fieldsStr, g1) =>
                        .ok (name ++ " \x7b " ++ fieldsStr ++ " \x7d", g1)
              | Option.none =>
                  match genExprsJoin fuel g arguments with
                  | .error e => .error e
                  | .ok (argsStr, g1) =>
                      .ok (toSnakeCase name ++ "(" ++ argsStr ++ ")", g1)
        | _ => .ok ("/* unsupported function call */", g)
    | .cond conditions defaultStatements =>
        match genCondParts fuel g true conditions with
        | .error e => .error e
        | .ok (condStr, g1) =>
          match defaultStatements with
          | Option.none => .ok (condStr, g1)
          | Option.some defaultExpr =>
            let g2 := { g1 with indentLevel := g1.indentLevel + 1 }
            match genExprValue fuel g2 defaultExpr with
            | .error e => .error e
            | .ok (defaultVal, g3) =>
              let inner := " else \x7b\n" ++ g3.indent ++ defaultVal ++ "\n"
              let g4 := { g3 with indentLevel := g3.indentLevel - 1 }
              .ok (condStr ++ inner ++ g4.indent ++ "\x7d", g4)
    | .logCall level message =>
        let logMacro :=
          match level with
          | LogLevel.debug => "debug!"
          | LogLevel.info => "info!"
          | LogLevel.warn => "warn!"
          | LogLevel.error => "error!"
        match genExprValue fuel g message with
        | .error e => .error e
        | .ok (messageVal, g1) => .ok (logMacro ++ "(" ++ messageVal ++ ")", g1)
    | .functionDefinition _ _ _ =>
        .ok ("/* function definitions not supported as values */", g)
    | .none => .ok ("None", g)
    | .some value =>
        match genExprValue fuel g value with
        | .error e => .error e
        | .ok (valueStr, g1) => .ok ("Some(" ++ valueStr ++ ")", g1)
    | .ok value =>
        match genExprValue fuel g value with
        | .error e => .error e
        | .ok (valueStr, g1) => .ok ("Ok(" ++ valueStr ++ ")", g1)
    | .err error =>
        match genExprValue fuel g error with
        | .error e => .error e
        | .ok (errorStr, g1) => .ok ("Err(" ++ errorStr ++ ")", g1)
    | .matchE value arms =>
        match genExprValue fuel g value with
        | .error e => .error e
        | .ok (valueStr, g1) =>
          match genMatchArmsCode fuel g1 arms with
          | .error e => .error e
          | .ok (armsStr, g2) =>
              .ok ("match " ++ valueStr ++ " \x7b\n" ++ armsStr ++ "\x7d", g2)
    | .lambda parameters body =>
        match genExprValue fuel g body with
        | .error e => .error e
        | .ok (bodyStr, g1) =>
            .ok ("|" ++ joinWith ", " (parameters.map (fun p => toSnakeCase p.name)) ++ "| "
              ++ bodyStr, g1)
    | .structDefinition _ _ => .error ()
    | .structInstantiation structName fieldValues =>
        match lookupAssoc g.structDefinitions structName with
        | Option.none => .error ()
        | Option.some fieldNames =>
            if fieldNames.length ≠ fieldValues.length then .error ()
            else
              match genStructFieldVals fuel g fieldNames fieldValues with
              | .error e => .error e
              | .ok (fieldsStr, g1) =>
                  .ok (structName ++ " \x7b " ++ fieldsStr ++ " \x7d", g1)

/-- `", "`-joined `generate_expression_value` over an expression list (tuple
and list elements, `Tuple` arguments, generic call arguments). -/
def genExprsJoin : Nat → RustCodeGenerator → List Expression →
    Except Unit (String × RustCodeGenerator)
  | 0, _, _ => .error ()
  | _, g, [] => .ok ("", g)
  | fuel + 1, g, e :: rest =>
      match genExprValue fuel g e with
      | .error err => .error err
      | .ok (s, g1) =>
        match rest with
        | [] => .ok (s, g1)
        | _ :: _ =>
          match genExprsJoin fuel g1 rest with
          | .error err => .error err
          | .ok (ss, g2) => .ok (s ++ ", " ++ ss, g2)

/-- The entry loop of the `Map`-literal arm of `generate_expression_value`
(one `map.insert(k, v);` line per entry, at the current indent). -/
def genMapInserts : Nat → RustCodeGenerator → List (Expression × Expression) →
    Except Unit (String × RustCodeGenerator)
  | 0, _, _ => .error ()
  | _, g, [] => .ok ("", g)
  | fuel + 1, g, (key, value) :: rest =>
      match genExprValue fuel g key with
      | .error e => .error e
      | .ok (keyVal, g1) =>
        match genExprValue fuel g1 value with
        | .error e => .error e
        | .ok (valueVal, g2) =>
          match genMapInserts fuel g2 rest with
          | .error e => .error e
          | .ok (restStr, g3) =>
              .ok (g2.indent ++ "map.insert(" ++ keyVal ++ ", " ++ valueVal ++ ");\n"
                ++ restStr, g3)

/-- The condition loop of the `Cond` arm of `generate_expression_value`
(`if`/`else if` chain; `isFirst` plays the role of the index test `i > 0`). -/
def genCondParts : Nat → RustCodeGenerator → Bool → List (Expression × Expression) →
    Except Unit (String × RustCodeGenerator)
  | 0, _, _, _ => .error ()
  | _, g, _, [] => .ok ("", g)
  | fuel + 1, g, isFirst, (condition, statements) :: rest =>
      match genExprValue fuel g condition with
      | .error e => .error e
      | .ok (condVal, g1) =>
        let g2 := { g1 with indentLevel := g1.indentLevel + 1 }
        match genExprValue fuel g2 statements with
        | .error e => .error e
        | .ok (stmtVal, g3) =>
          let g4 := { g3 with indentLevel := g3.indentLevel - 1 }
          let part := (if isFirst then "" else " else ") ++ "if " ++ condVal ++ " \x7b\n"
            ++ g3.indent ++ stmtVal ++ "\n" ++ g4.indent ++ "\x7d"
          match genCondParts fuel g4 false rest with
          | .error e => .error e
          | .ok (restStr, g5) => .ok (part ++ restStr, g5)

/-- The `", value"` argument loop of the `println!` generators. -/
def genPrintArgs : Nat → RustCodeGenerator → List Expression →
    Except Unit (String × RustCodeGenerator)
  | 0, _, _ => .error ()
  | _, g, [] => .ok ("", g)
  | fuel + 1, g, arg :: rest =>
      match genExprValue fuel g arg with
      | .error e => .error e
      | .ok (argVal, g1) =>
        match genPrintArgs fuel g1 rest with
        | .error e => .error e
        | .ok (restStr, g2) => .ok (", " ++ argVal ++ restStr, g2)

/-- The `field_name: value` zip loop shared by the struct-constructor call
branch and the `StructInstantiation` arm of `generate_expression_value`. -/
def genStructFieldVals : Nat → RustCodeGenerator → List String → List Expression →
    Except Unit (String × RustCodeGenerator)
  | 0, _, _, _ => .error ()
  | _, g, [], _ => .ok ("", g)
  | _, g, _ :: _, [] => .ok ("", g)
  | fuel + 1, g, fieldName :: fieldNames, value :: values =>
      match genExprValue fuel g value with
      | .error e => .error e
      | .ok (valueStr, g1) =>
        match fieldNames, values with
        | [], _ => .ok (fieldName ++ ": " ++ valueStr, g1)
        | _ :: _, [] => .ok (fieldName ++ ": " ++ valueStr, g1)
        | _ :: _, _ :: _ =>
          match genStructFieldVals fuel g1 fieldNames values with
          | .error e => .error e
          | .ok (restStr, g2) => .ok (fieldName ++ ": " ++ valueStr ++ ", " ++ restStr, g2)

/-- The arm loop of the `Match` arm of `generate_expression_value`
(one `    pattern => expr,` line per arm, fixed four-space indent). -/
def genMatchArmsCode : Nat → RustCodeGenerator → List (Pattern × Expression) →
    Except Unit (String × RustCodeGenerator)
  | 0, _, _ => .error ()
  | _, g, [] => .ok ("", g)
  | fuel + 1, g, (pattern, expr) :: rest =>
      match genPattern pattern with
      | .error e => .error e
      | .ok patternStr =>
        match genExprValue fuel g expr with
        | .error e => .error e
        | .ok (exprStr, g1) =>
          match genMatchArmsCode fuel g1 rest with
          | .error e => .error e
          | .ok (restStr, g2) =>
              .ok ("    " ++ patternStr ++ " => " ++ exprStr ++ ",\n" ++ restStr, g2)

end

/-- `RustCodeGenerator::generate_statement`. -/
def genStatement (fuel : Nat) (g : RustCodeGenerator) (expr : Expression) :
    Except Unit RustCodeGenerator :=
  match expr with
  | .functionCall function arguments =>
    match function with
    | .identifier name =>
      if name = "Print" then
        let fmt :=
          if arguments.isEmpty then ""
          else "\"" ++ joinWith " " (arguments.map (formatPart g.structDefinitions)) ++ "\""
        match genPrintArgs fuel g arguments with
        | .error e => .error e
        | .ok (argStr, g1) =>
            .ok { g1 with
              output := g1.output ++ g1.indent ++ "println!(" ++ fmt ++ argStr ++ ");\n" }
      else
        match genExprValue fuel g expr with
        | .error e => .error e
        | .ok (callExpr, g1) =>
            .ok { g1 with output := g1.output ++ g1.indent ++ callExpr ++ ";\n" }
    | _ =>
        match genExprValue fuel g expr with
        | .error e => .error e
        | .ok (callExpr, g1) =>
            .ok { g1 with output := g1.output ++ g1.indent ++ callExpr ++ ";\n" }
  | _ =>
      match genExprValue fuel g expr with
      | .error e => .error e
      | .ok (value, g1) =>
          .ok { g1 with output := g1.output ++ g1.indent ++ value ++ ";\n" }

/-- The field loop of `RustCodeGenerator::generate_struct_definition`. -/
def genStructFieldLines (g : RustCodeGenerator) : List TypeAnnotation → String
  | [] => ""
  | field :: fields =>
      g.indent ++ "pub " ++ toSnakeCase field.name ++ ": " ++ typeToRust field.type_ ++ ",\n"
        ++ genStructFieldLines g fields

/-- `RustCodeGenerator::generate_struct_definition`: registers the struct
field names in `struct_definitions`, then emits the derive attribute and the
struct declaration. -/
def genStructDefinition (g : RustCodeGenerator) (name : String)
    (fields : List TypeAnnotation) : RustCodeGenerator :=
  let fieldNames := fields.map (fun f => toSnakeCase f.name)
  let g1 := { g with structDefinitions := (name, fieldNames) :: g.structDefinitions }
  let header := g1.indent ++ "#[derive(Debug, Clone, PartialEq)]\n"
    ++ g1.indent ++ "pub struct " ++ name ++ " \x7b\n"
  let g2 := { g1 with indentLevel := g1.indentLevel + 1 }
  let fieldLines := genStructFieldLines g2 fields
  let g3 := { g2 with indentLevel := g2.indentLevel - 1 }
  { g3 with output := g3.output ++ header ++ fieldLines ++ g3.indent ++ "\x7d\n" }

/-- `RustCodeGenerator::generate_function_definition`. -/
def genFunctionDefinition (fuel : Nat) (g : RustCodeGenerator) (name : String)
    (parameters : List TypeAnnotation) (body : Expression) : Except Unit RustCodeGenerator :=
  let rustName := toSnakeCase name
  let paramsStr := joinWith ", "
    (parameters.map (fun p => toSnakeCase p.name ++ ": " ++ typeToRust p.type_))
  let returnType := inferReturnType body parameters
  let signature := g.indent ++ "fn " ++ rustName ++ "(" ++ paramsStr ++ ")"
    ++ (if returnType ≠ "()" then " -> " ++ returnType else "") ++ " \x7b\n"
  let g1 := { g with indentLevel := g.indentLevel + 1, inFunction := true }
  match genExprValue fuel g1 body with
  | .error e => .error e
  | .ok (bodyCode, g2) =>
    let bodyLine := g2.indent ++ bodyCode ++ "\n"
    let g3 := { g2 with indentLevel := g2.indentLevel - 1, inFunction := false }
    .ok { g3 with output := g3.output ++ signature ++ bodyLine ++ g3.indent ++ "\x7d\n" }

/-- `RustCodeGenerator::generate_top_level_item`. -/
def genTopLevelItem (fuel : Nat) (g : RustCodeGenerator) (expr : Expression) :
    Except Unit RustCodeGenerator :=
  match expr with
  | .functionDefinition name parameters body => genFunctionDefinition fuel g name parameters body
  | .structDefinition name fields => .ok (genStructDefinition g name fields)
  | _ => genStatement fuel g expr

/-- The definition-partition predicate of the `Program` arm of
`RustCodeGenerator::generate` (functions and structs go first). -/
def isDefinitionItem : Expression → Bool
  | .functionDefinition _ _ _ => true
  | .structDefinition _ _ => true
  | _ => false

/-- The top-level-item loop of `generate` (each item followed by a blank
line). -/
def genTopLevelItems (fuel : Nat) (g : RustCodeGenerator) :
    List Expression → Except Unit RustCodeGenerator
  | [] => .ok g
  | item :: items =>
      match genTopLevelItem fuel g item with
      | .error e => .error e
      | .ok g1 => genTopLevelItems fuel { g1 with output := g1.output ++ "\n" } items

/-- The statement loop of the synthesized `main` in `generate`. -/
def genStatements (fuel : Nat) (g : RustCodeGenerator) :
    List Expression → Except Unit RustCodeGenerator
  | [] => .ok g
  | stmt :: stmts =>
      match genStatement fuel g stmt with
      | .error e => .error e
      | .ok g1 => genStatements fuel g1 stmts

/-- `RustCodeGenerator::generate`: clears the output, partitions a `Program`
into definitions and statements, renders definitions first and statements
inside a synthesized `main` (emitting a stub `main` when there are no
statements), and returns the output text. -/
def generate (fuel : Nat) (g0 : RustCodeGenerator) (expr : Expression) :
    Except Unit (String × RustCodeGenerator) :=
  let g := { g0 with output := "", indentLevel := 0 }
  match expr with
  | .program expressions =>
      let part := expressions.partition isDefinitionItem
      match genTopLevelItems fuel g part.1 with
      | .error e => .error e
      | .ok g1 =>
        if part.2.isEmpty then
          let g2 := { g1 with
            output := g1.output ++ "fn main() \x7b\n"
              ++ "    // Stub main function for compilation\n" ++ "\x7d\n" }
          .ok (g2.output, g2)
        else
          let g2 := { g1 with
            output := g1.output ++ "fn main() \x7b\n",
            indentLevel := g1.indentLevel + 1 }
          match genStatements fuel g2 part.2 with
          | .error e => .error e
          | .ok g3 =>
              let g4 := { g3 with
                indentLevel := g3.indentLevel - 1,
                output := g3.output ++ "\x7d\n" }
              .ok (g4.output, g4)
  | .functionDefinition _ _ _ =>
      match genTopLevelItem fuel g expr with
      | .error e => .error e
      | .ok g1 =>
          let g2 := { g1 with
            output := g1.output ++ "\n" ++ "fn main() \x7b\n"
              ++ "    // Stub main function for compilation\n" ++ "\x7d\n" }
          .ok (g2.output, g2)
  | .structDefinition _ _ =>
      match genTopLevelItem fuel g expr with
      | .error e => .error e
      | .ok g1 =>
          let g2 := { g1 with
            output := g1.output ++ "\n" ++ "fn main() \x7b\n"
              ++ "    // Stub main function for compilation\n" ++ "\x7d\n" }
          .ok (g2.output, g2)
  | _ =>
      let g1 := { g with
        output := g.output ++ "fn main() \x7b\n",
        indentLevel := g.indentLevel + 1 }
      match genStatement fuel g1 expr with
      | .error e => .error e
      | .ok g2 =>
          let g3 := { g2 with
            indentLevel := g2.indentLevel - 1,
            output := g2.output ++ "\x7d\n" }
          .ok (g3.output, g3)

example :
    (genExprValue 100 RustCodeGenerator.new
      (.binaryOp (.binaryOp (.number 2) .add (.number 3)) .multiply (.number 4))).map (·.1) =
    .ok "((2 + 3) * 4)" := rfl
example :
    (genExprValue 100 RustCodeGenerator.new (.tuple [.number 42])).map (·.1) = .ok "(42,)" := rfl

/-! ### Support lemmas for the claim theorems -/

/-- Definitional unfolding of the `BinaryOp` arm of `infer_expression`
(the compiled nested-structural recursion does not expose equation lemmas, so
the arms used by universal theorems are unfolded by `rfl` here). -/
theorem inferExpression_binaryOp_unfold (env : TypeEnvironment)
    (left right : Expression) (operator : Operator) :
    inferExpression env (.binaryOp left operator right) =
      (match inferExpression env left with
      | .error e => .error e
      | .ok (leftType, env1) =>
        match inferExpression env1 right with
        | .error e => .error e
        | .ok (rightType, env2) =>
          match operator with
          | .add | .subtract | .multiply | .divide | .power =>
            if !(isNumeric leftType) then
              .error (.typeMismatch .int32 leftType "arithmetic operation")
            else if leftType ≠ rightType then
              .error (.typeMismatch leftType rightType "arithmetic operation")
            else
              .ok (leftType, env2)
          | .equals | .notEquals | .lessThan | .greaterThan =>
            if leftType ≠ rightType then
              .error (.typeMismatch leftType rightType "comparison operation")
            else
              .ok (.bool, env2)) := rfl

/-- Definitional unfolding of the non-empty `List` arm of `infer_expression`. -/
theorem inferExpression_list_cons_unfold (env : TypeEnvironment)
    (e : Expression) (rest : List Expression) :
    inferExpression env (.list (e :: rest)) =
      (match inferExpression env e with
      | .error err => .error err
      | .ok (firstType, env1) =>
        match checkListElems firstType env1 rest with
        | .error err => .error err
        | .ok env2 => .ok (.list firstType, env2)) := rfl

/-- Definitional unfolding of the `FunctionDefinition` arm of
`infer_expression`. -/
theorem inferExpression_functionDefinition_unfold (env : TypeEnvironment)
    (name : String) (parameters : List TypeAnnotation) (body : Expression) :
    inferExpression env (.functionDefinition name parameters body) =
      (match inferExpression (bindParameters env.child parameters) body with
      | .error e => .error e
      | .ok (returnType, _) =>
          .ok (Ty.function (parameters.map (fun p => p.type_)) returnType,
            env.bind name (Ty.function (parameters.map (fun p => p.type_)) returnType))) := rfl

/-- Definitional unfolding of the identifier-headed `FunctionCall` arm of
`infer_expression`. -/
theorem inferExpression_call_ident_unfold (env : TypeEnvironment)
    (name : String) (arguments : List Expression) :
    inferExpression env (.functionCall (.identifier name) arguments) =
      (if name = "Print" then .ok (.tuple [], env)
      else if name = "Tuple" then
          match inferExprList env arguments with
          | .error e => .error e
          | .ok (types, env1) => .ok (.tuple types, env1)
      else if name = "Map" ∨ name = "Filter" then
          if arguments.length ≠ 2 then
            .error (.arityMismatch name 2 arguments.length)
          else
            .ok (.list .int32, env)
      else if name = "Fold" then inferFoldInit name env arguments
      else
          match env.lookupStruct name with
          | Option.some fields =>
              if fields.length ≠ arguments.length then
                .error (.fieldCountMismatch name fields.length arguments.length)
              else
                match checkStructArgs env arguments fields with
                | .error e => .error e
                | .ok env1 => .ok (.custom name, env1)
          | Option.none =>
              match env.lookup name with
              | Option.some funcType =>
                  match funcType with
                  | .function paramTypes returnType =>
                      if paramTypes.length ≠ arguments.length then
                        .error (.arityMismatch name paramTypes.length arguments.length)
                      else
                        match checkCallArgs name env arguments paramTypes with
                        | .error e => .error e
                        | .ok env1 => .ok (returnType, env1)
                  | _ =>
                      .error (.typeMismatch (.function [] .int32) funcType
                        (name ++ " is not a function"))
              | Option.none => .error (.undefinedIdentifier name)) := rfl

/-- `bindParameters` never touches the struct table. -/
theorem bindParameters_structs (parameters : List TypeAnnotation) (env : TypeEnvironment) :
    (bindParameters env parameters).structs = env.structs := by
  induction parameters generalizing env with
  | nil => rfl
  | cons p ps ih => exact (ih (env.bind p.name p.type_)).trans rfl

/-- A name bound neither in the environment nor among the parameters stays
unbound after `bindParameters`. -/
theorem bindParameters_lookup_none (parameters : List TypeAnnotation) (env : TypeEnvironment)
    (name : String) (h1 : env.lookup name = Option.none)
    (h2 : ¬ name ∈ parameters.map (fun p => p.name)) :
    (bindParameters env parameters).lookup name = Option.none := by
  induction parameters generalizing env with
  | nil => exact h1
  | cons p ps ih =>
      have hpname : p.name ≠ name := fun hh => h2 (by simp [hh])
      have hbind : (env.bind p.name p.type_).lookup name = Option.none := by
        simp only [TypeEnvironment.bind, TypeEnvironment.lookup, lookupAssoc] at *
        rw [if_neg hpname]
        exact h1
      have h2' : ¬ name ∈ ps.map (fun p => p.name) := fun hh => h2 (by simp [hh])
      exact ih (env.bind p.name p.type_) hbind h2'

/-- If every element of `rest` infers (threading the environment) to the type
`t`, the element-checking loop of the `List` arm accepts and ends in the same
environment as sequential inference. -/
theorem checkListElems_of_inferExprList (rest : List Expression) (t : Ty)
    (env1 env2 : TypeEnvironment) (ts : List Ty)
    (hseq : inferExprList env1 rest = .ok (ts, env2)) (hall : ∀ u ∈ ts, u = t) :
    checkListElems t env1 rest = .ok env2 := by
  induction rest generalizing env1 ts with
  | nil =>
      simp only [inferExprList] at hseq
      cases hseq
      rfl
  | cons e es ih =>
      cases hInf : inferExpression env1 e with
      | error err => simp [inferExprList, hInf] at hseq
      | ok r =>
        obtain ⟨u, env'⟩ := r
        cases hSeq2 : inferExprList env' es with
        | error err => simp [inferExprList, hInf, hSeq2] at hseq
        | ok r2 =>
          obtain ⟨ts', env2'⟩ := r2
          simp only [inferExprList, hInf, hSeq2, Except.ok.injEq, Prod.mk.injEq] at hseq
          obtain ⟨hts, henv⟩ := hseq
          subst hts
          subst henv
          have hu : u = t := hall u (by simp)
          simp only [checkListElems, hInf, hu]
          rw [if_neg (by simp)]
          exact ih env' ts' hSeq2 (fun v hv => hall v (by simp [hv]))

/-- If the elements before `bad` all infer to `t` but `bad` infers to a
different type `u`, the element-checking loop fails with a `TypeMismatch`
whose `expected` is `t` and whose `actual` is `u`. -/
theorem checkListElems_mismatch (pre : List Expression) (bad : Expression)
    (post : List Expression) (t u : Ty) (env1 env2 env3 : TypeEnvironment) (ts : List Ty)
    (hseq : inferExprList env1 pre = .ok (ts, env2)) (hall : ∀ v ∈ ts, v = t)
    (hbad : inferExpression env2 bad = .ok (u, env3)) (hu : u ≠ t) :
    checkListElems t env1 (pre ++ bad :: post) = .error (.typeMismatch t u "list elements") := by
  induction pre generalizing env1 ts with
  | nil =>
      simp only [inferExprList] at hseq
      cases hseq
      simp only [List.nil_append, checkListElems, hbad]
      rw [if_pos hu]
  | cons e es ih =>
      cases hInf : inferExpression env1 e with
      | error err => simp [inferExprList, hInf] at hseq
      | ok r =>
        obtain ⟨v, env'⟩ := r
        cases hSeq2 : inferExprList env' es with
        | error err => simp [inferExprList, hInf, hSeq2] at hseq
        | ok r2 =>
          obtain ⟨ts', env2'⟩ := r2
          simp only [inferExprList, hInf, hSeq2, Except.ok.injEq, Prod.mk.injEq] at hseq
          obtain ⟨hts, henv⟩ := hseq
          subst hts
          subst henv
          have hv : v = t := hall v (by simp)
          simp only [List.cons_append, checkListElems, hInf, hv]
          rw [if_neg (by simp)]
          exact ih env' ts' hSeq2 (fun w hw => hall w (by simp [hw]))

/-! ### Claim theorems -/

/-- C10: applying `infer_expression` directly to a `Lambda`, a `Map` literal,
a `Program` node, or a `StructInstantiation` node always fails with a
`CannotInfer` error, in every environment. -/
theorem c10_uninferable_shapes (env : TypeEnvironment) :
    (∀ parameters body,
      inferExpression env (.lambda parameters body) = .error (.cannotInfer "lambda")) ∧
    (∀ entries,
      inferExpression env (.map entries) = .error (.cannotInfer "map literal")) ∧
    (∀ exprs,
      inferExpression env (.program exprs) = .error (.cannotInfer "program")) ∧
    (∀ structName fieldValues,
      inferExpression env (.structInstantiation structName fieldValues)
        = .error (.cannotInfer "struct instantiation")) :=
  ⟨fun _ _ => rfl, fun _ => rfl, fun _ => rfl, fun _ _ => rfl⟩

/-- C1 (counterexample): the claim says ordering on two numeric operands of
different int/float types succeeds, and that ordering on non-numeric operands
fails. The code does neither: `Int32 < Float64` (both numeric) fails with a
`TypeMismatch`, and `String < String` (both non-numeric) succeeds with
`Bool`. -/
theorem c1_counterexample :
    inferExpression TypeEnvironment.new (.binaryOp (.number 1) .lessThan (.float "1.0"))
      = .error (.typeMismatch .int32 .float64 "comparison operation") ∧
    inferExpression TypeEnvironment.new (.binaryOp (.string "a") .lessThan (.string "b"))
      = .ok (.bool, TypeEnvironment.new) :=
  ⟨rfl, rfl⟩

/-- C1 (amended): for `<` and `>`, `infer_expression` requires the two operand
types to be *identical* (exactly as for `==` and `!=`) and yields `Bool`;
when they differ — including mixed int/float operands — it fails with
`TypeMismatch`, and identical non-numeric operand types are accepted (no
numeric side condition is checked). -/
theorem c1_ordering_requires_identical_types
    (env envL envR : TypeEnvironment) (left right : Expression) (leftType rightType : Ty)
    (op : Operator) (hop : op = .lessThan ∨ op = .greaterThan)
    (hL : inferExpression env left = .ok (leftType, envL))
    (hR : inferExpression envL right = .ok (rightType, envR)) :
    (leftType = rightType →
      inferExpression env (.binaryOp left op right) = .ok (.bool, envR)) ∧
    (leftType ≠ rightType →
      inferExpression env (.binaryOp left op right)
        = .error (.typeMismatch leftType rightType "comparison operation")) := by
  constructor <;> intro h <;> rcases hop with rfl | rfl <;>
    rw [inferExpression_binaryOp_unfold] <;> simp [hL, hR, h]

/-- C1 (witness): the amended theorem applied at `1 < 2` (identical types,
yields `Bool`) and at `1 > "x"` (differing types, `TypeMismatch`). -/
theorem c1_witness :
    inferExpression TypeEnvironment.new (.binaryOp (.number 1) .lessThan (.number 2))
      = .ok (.bool, TypeEnvironment.new) ∧
    inferExpression TypeEnvironment.new (.binaryOp (.number 1) .greaterThan (.string "x"))
      = .error (.typeMismatch .int32 .string "comparison operation") := by
  constructor
  · exact (c1_ordering_requires_identical_types TypeEnvironment.new TypeEnvironment.new
      TypeEnvironment.new (.number 1) (.number 2) .int32 .int32 .lessThan
      (Or.inl rfl) rfl rfl).1 rfl
  · exact (c1_ordering_requires_identical_types TypeEnvironment.new TypeEnvironment.new
      TypeEnvironment.new (.number 1) (.string "x") .int32 .string .greaterThan
      (Or.inr rfl) rfl rfl).2 (by decide)

/-- C2 (counterexample): the claim says a recursive self-call inside a
function body resolves. It does not: the body is inferred in a *cloned* child
environment before the function name is bound (the binding lands in the parent
environment afterwards), so the self-call fails with `UndefinedIdentifier`. -/
theorem c2_counterexample :
    inferExpression TypeEnvironment.new
      (.functionDefinition "f" [⟨"x", .int32⟩] (.functionCall (.identifier "f") [.identifier "x"]))
      = .error (.undefinedIdentifier "f") := rfl

/-- C2 (amended): a `FunctionDefinition` binds each declared parameter in a
child (cloned) environment, infers the body there, uses the body type as the
return type, and binds the function name to its `Function` type in the
*parent* environment only after body inference; consequently a recursive
self-call in the body fails with `UndefinedIdentifier` whenever the name is
not already bound (and is neither a built-in nor a struct name). -/
theorem c2_function_definition_binding
    (env : TypeEnvironment) (name : String) (parameters : List TypeAnnotation) :
    (∀ body, inferExpression env (.functionDefinition name parameters body) =
      match inferExpression (bindParameters env.child parameters) body with
      | .error e => .error e
      | .ok (returnType, _) =>
          .ok (Ty.function (parameters.map (fun p => p.type_)) returnType,
            env.bind name (Ty.function (parameters.map (fun p => p.type_)) returnType))) ∧
    (∀ args : List Expression,
      env.lookup name = Option.none →
      ¬ name ∈ parameters.map (fun p => p.name) →
      env.lookupStruct name = Option.none →
      ¬ name ∈ (["Print", "Tuple", "Map", "Filter", "Fold"] : List String) →
      inferExpression env
        (.functionDefinition name parameters (.functionCall (.identifier name) args))
        = .error (.undefinedIdentifier name)) := by
  constructor
  · intro body
    rfl
  · intro args h1 h2 h3 h4
    have hlook : (bindParameters env.child parameters).lookup name = Option.none :=
      bindParameters_lookup_none parameters env.child name h1 h2
    have hstr : (bindParameters env.child parameters).lookupStruct name = Option.none := by
      simp only [TypeEnvironment.lookupStruct, bindParameters_structs]
      exact h3
    simp only [List.mem_cons, List.mem_singleton, not_or] at h4
    obtain ⟨n1, n2, n3, n4, n5, -⟩ := h4
    rw [inferExpression_functionDefinition_unfold, inferExpression_call_ident_unfold]
    rw [if_neg n1, if_neg n2, if_neg (not_or.mpr ⟨n3, n4⟩), if_neg n5, hstr, hlook]

/-- C2 (witness): the amended theorem applied concretely — the equation
instance for a one-parameter definition, and the failing self-call for a
fresh name `g`. -/
theorem c2_witness :
    inferExpression TypeEnvironment.new
      (.functionDefinition "g" [⟨"x", .int32⟩] (.functionCall (.identifier "g") [.number 5]))
      = .error (.undefinedIdentifier "g") :=
  (c2_function_definition_binding TypeEnvironment.new "g" [⟨"x", .int32⟩]).2
    [.number 5] rfl (by decide) rfl (by decide)

/-- C5: an empty literal list fails with `CannotInfer`; a non-empty list whose
later elements all infer (threading the environment) to the first element
type `t` infers to `List t`; and a list in which some element infers to a
type `u ≠ t` (all elements before it inferring to `t`) fails with
`TypeMismatch {expected := t, actual := u}`. -/
theorem c5_list_inference :
    (∀ env : TypeEnvironment,
      inferExpression env (.list []) = .error (.cannotInfer "empty list")) ∧
    (∀ (env env1 env2 : TypeEnvironment) (e : Expression) (rest : List Expression)
        (t : Ty) (ts : List Ty),
      inferExpression env e = .ok (t, env1) →
      inferExprList env1 rest = .ok (ts, env2) →
      (∀ u ∈ ts, u = t) →
      inferExpression env (.list (e :: rest)) = .ok (.list t, env2)) ∧
    (∀ (env env1 env2 env3 : TypeEnvironment) (e bad : Expression)
        (pre post : List Expression) (t u : Ty) (ts : List Ty),
      inferExpression env e = .ok (t, env1) →
      inferExprList env1 pre = .ok (ts, env2) →
      (∀ v ∈ ts, v = t) →
      inferExpression env2 bad = .ok (u, env3) →
      u ≠ t →
      inferExpression env (.list (e :: (pre ++ bad :: post)))
        = .error (.typeMismatch t u "list elements")) := by
  refine ⟨fun env => rfl, ?_, ?_⟩
  · intro env env1 env2 e rest t ts hfirst hseq hall
    rw [inferExpression_list_cons_unfold]
    simp only [hfirst, checkListElems_of_inferExprList rest t env1 env2 ts hseq hall]
  · intro env env1 env2 env3 e bad pre post t u ts hfirst hseq hall hbad hu
    rw [inferExpression_list_cons_unfold]
    simp only [hfirst, checkListElems_mismatch pre bad post t u env1 env2 env3 ts hseq hall hbad hu]

/-- C5 (witness): the three parts of the claim theorem applied concretely to
`[]`, `[1, 2]`, and `[1, "x"]`. -/
theorem c5_witness :
    inferExpression TypeEnvironment.new (.list [])
      = .error (.cannotInfer "empty list") ∧
    inferExpression TypeEnvironment.new (.list [.number 1, .number 2])
      = .ok (.list .int32, TypeEnvironment.new) ∧
    inferExpression TypeEnvironment.new (.list [.number 1, .string "x"])
      = .error (.typeMismatch .int32 .string "list elements") := by
  refine ⟨c5_list_inference.1 TypeEnvironment.new, ?_, ?_⟩
  · exact c5_list_inference.2.1 TypeEnvironment.new TypeEnvironment.new TypeEnvironment.new
      (.number 1) [.number 2] .int32 [.int32] rfl rfl (by decide)
  · exact c5_list_inference.2.2 TypeEnvironment.new TypeEnvironment.new TypeEnvironment.new
      TypeEnvironment.new (.number 1) (.string "x") [] [] .int32 .string [] rfl rfl
      (by decide) rfl (by decide)

/-- C9 (counterexample): the claim quantifies over *every* environment binding
the called name to a one-parameter `Function` type, but the built-in names are
intercepted before the environment is consulted: with `Map` bound to a
one-parameter function type, `Map[1, 2]` succeeds as the built-in (yielding
`List Int32`) instead of failing with `ArityMismatch {expected := 1, actual
:= 2}`. -/
theorem c9_counterexample :
    inferExpression (TypeEnvironment.new.bind "Map" (.function [.int32] .int32))
      (.functionCall (.identifier "Map") [.number 1, .number 2])
      = .ok (.list .int32, TypeEnvironment.new.bind "Map" (.function [.int32] .int32)) := rfl

/-- C9 (amended): for every environment binding `name` to a one-parameter
`Function` type, *provided* `name` is none of the built-ins
`Print`/`Tuple`/`Map`/`Filter`/`Fold` and is not a registered struct name,
inferring a call of `name` with two arguments fails with
`ArityMismatch {function := name, expected := 1, actual := 2}`. -/
theorem c9_arity_mismatch
    (env : TypeEnvironment) (name : String) (paramType returnType : Ty)
    (arg1 arg2 : Expression)
    (hfn : env.lookup name = Option.some (.function [paramType] returnType))
    (hstruct : env.lookupStruct name = Option.none)
    (hname : ¬ name ∈ (["Print", "Tuple", "Map", "Filter", "Fold"] : List String)) :
    inferExpression env (.functionCall (.identifier name) [arg1, arg2])
      = .error (.arityMismatch name 1 2) := by
  simp only [List.mem_cons, List.mem_singleton, not_or] at hname
  obtain ⟨n1, n2, n3, n4, n5, -⟩ := hname
  rw [inferExpression_call_ident_unfold]
  rw [if_neg n1, if_neg n2, if_neg (not_or.mpr ⟨n3, n4⟩), if_neg n5, hstruct, hfn]
  simp

/-- C9 (witness): the amended theorem applied to a fresh name `f` bound to a
one-parameter function type and called with two arguments. -/
theorem c9_witness :
    inferExpression (TypeEnvironment.new.bind "f" (.function [.int32] .int32))
      (.functionCall (.identifier "f") [.number 1, .number 2])
      = .error (.arityMismatch "f" 1 2) :=
  c9_arity_mismatch (TypeEnvironment.new.bind "f" (.function [.int32] .int32)) "f"
    .int32 .int32 (.number 1) (.number 2) rfl rfl (by decide)

/-- C3: the source text `Match[5, [1,"one"], [2,"two"], [_,"other"]]` lexes
and parses into a `Match` expression with exactly three arms in source order,
the last a wildcard (the `_` token is modelled from the spec, see `Token`);
`infer_expression` types the whole expression as `String`; and code
generation emits a three-arm pattern match in the same order. -/
theorem c3_match_pipeline :
    parseString 200 "Match[5, [1,\"one\"], [2,\"two\"], [_,\"other\"]]" =
      Option.some (.matchE (.number 5)
        [(.literal (.number 1), .string "one"),
         (.literal (.number 2), .string "two"),
         (.wildcard, .string "other")]) ∧
    inferExpression TypeEnvironment.new
      (.matchE (.number 5)
        [(.literal (.number 1), .string "one"),
         (.literal (.number 2), .string "two"),
         (.wildcard, .string "other")])
      = .ok (.string, TypeEnvironment.new) ∧
    genExprValue 100 RustCodeGenerator.new
      (.matchE (.number 5)
        [(.literal (.number 1), .string "one"),
         (.literal (.number 2), .string "two"),
         (.wildcard, .string "other")])
      = .ok ("match 5 \x7b\n    1 => \"one\".to_string(),\n    2 => \"two\".to_string(),\n    _ => \"other\".to_string(),\n\x7d",
          RustCodeGenerator.new) :=
  ⟨rfl, rfl, rfl⟩

/-- C4: binary operators parse flat and left-associative with no precedence
tiers — `2 + 3 * 4` parses as `BinaryOp(BinaryOp(2, Add, 3), Multiply, 4)`,
not as `BinaryOp(2, Add, BinaryOp(3, Multiply, 4))` — and code generation
renders it fully parenthesized as `((2 + 3) * 4)`. -/
theorem c4_flat_precedence :
    parseString 100 "2 + 3 * 4" =
      Option.some (.binaryOp (.binaryOp (.number 2) .add (.number 3)) .multiply (.number 4)) ∧
    parseString 100 "2 + 3 * 4" ≠
      Option.some (.binaryOp (.number 2) .add (.binaryOp (.number 3) .multiply (.number 4))) ∧
    genExprValue 100 RustCodeGenerator.new
      (.binaryOp (.binaryOp (.number 2) .add (.number 3)) .multiply (.number 4))
      = .ok ("((2 + 3) * 4)", RustCodeGenerator.new) := by
  have h0 : parseString 100 "2 + 3 * 4" =
      Option.some (.binaryOp (.binaryOp (.number 2) .add (.number 3)) .multiply (.number 4)) := rfl
  refine ⟨h0, ?_, rfl⟩
  intro h
  rw [h0] at h
  injection h with h1
  injection h1 with hL hOp hR
  exact Operator.noConfusion hOp

/-- C8: tuple literals round-trip through parse and generate — `"(1, 2)"`
reproduces `(1, 2)`, and `"(42,)"` preserves the trailing comma, the
single-element tuple marker. -/
theorem c8_tuple_roundtrip :
    parseString 100 "(1, 2)" = Option.some (.tuple [.number 1, .number 2]) ∧
    genExprValue 100 RustCodeGenerator.new (.tuple [.number 1, .number 2])
      = .ok ("(1, 2)", RustCodeGenerator.new) ∧
    parseString 100 "(42,)" = Option.some (.tuple [.number 42]) ∧
    genExprValue 100 RustCodeGenerator.new (.tuple [.number 42])
      = .ok ("(42,)", RustCodeGenerator.new) :=
  ⟨rfl, rfl, rfl, rfl⟩

/-- C6: generating a `Program` holding `Struct[Point, [x: Int32, y: Int32]]`
followed by `Point[10, 20]` emits the struct declaration exactly once and
renders the instantiation with the registered field names in declaration
order (`Point { x: 10, y: 20 }`); the struct-name→field-names table is
populated by `generate_struct_definition` and consulted by the
constructor-call branch of `generate_expression_value`. -/
theorem c6_struct_codegen :
    (generate 100 RustCodeGenerator.new
        (.program [.structDefinition "Point" [⟨"x", .int32⟩, ⟨"y", .int32⟩],
          .functionCall (.identifier "Point") [.number 10, .number 20]])).map (fun r => r.1)
      = .ok ("#[derive(Debug, Clone, PartialEq)]\npub struct Point \x7b\n    pub x: i32,\n    pub y: i32,\n\x7d\n\nfn main() \x7b\n    Point \x7b x: 10, y: 20 \x7d;\n\x7d\n") ∧
    (genStructDefinition RustCodeGenerator.new "Point"
        [⟨"x", .int32⟩, ⟨"y", .int32⟩]).structDefinitions
      = [("Point", ["x", "y"])] ∧
    (genExprValue 100
        (genStructDefinition RustCodeGenerator.new "Point" [⟨"x", .int32⟩, ⟨"y", .int32⟩])
        (.functionCall (.identifier "Point") [.number 10, .number 20])).map (fun r => r.1)
      = .ok "Point \x7b x: 10, y: 20 \x7d" :=
  ⟨rfl, rfl, rfl⟩

/-- C7: after `Identifier [ items ]` is collected, the presence of `:=`
decides the node — with `:=` the parser returns a `FunctionDefinition` whose
parameter list is exactly the parameter-shaped items (`paramsOf` discards
expression-shaped ones silently); without `:=` it returns a `FunctionCall`
whose arguments are exactly the expression-shaped items (`exprsOf` discards
parameter-shaped ones); a mixed item list is never a parse error by itself.
The final four conjuncts pin down the discarding behavior of
`paramsOf`/`exprsOf` item by item. -/
theorem c7_function_or_call_disambiguation
    (fuel : Nat) (st st3 : ParserState) (name : String) (items : List ArgumentOrParameter)
    (hname : st.current = Option.some (.identifier name))
    (hbracket : (advance st).current = Option.some Token.leftBracket)
    (hitems : parseItems fuel (advance (advance st)) [] = (Option.some items, st3)) :
    (∀ body st5, st3.current = Option.some Token.define →
        parseExpression fuel (advance st3) = (Option.some body, st5) →
        parseFunctionOrCall (fuel + 1) st =
          (Option.some (.functionDefinition name (paramsOf items) body), st5)) ∧
    (st3.current ≠ Option.some Token.define →
        parseFunctionOrCall (fuel + 1) st =
          (Option.some (.functionCall (.identifier name) (exprsOf items)), st3)) ∧
    (∀ p rest, paramsOf (.parameter p :: rest) = p :: paramsOf rest) ∧
    (∀ e rest, paramsOf (.expression e :: rest) = paramsOf rest) ∧
    (∀ e rest, exprsOf (.expression e :: rest) = e :: exprsOf rest) ∧
    (∀ p rest, exprsOf (.parameter p :: rest) = exprsOf rest) := by
  refine ⟨?_, ?_, fun p rest => rfl, fun e rest => rfl, fun e rest => rfl, fun p rest => rfl⟩
  · intro body st5 hdefine hbody
    simp only [parseFunctionOrCall, hname, hbracket, hitems, hdefine, hbody]
  · intro hne
    cases hcur : st3.current with
    | none => simp only [parseFunctionOrCall, hname, hbracket, hitems, hcur]
    | some tok =>
        cases tok <;>
          first
          | exact absurd hcur hne
          | simp only [parseFunctionOrCall, hname, hbracket, hitems, hcur]

/-- C7 (witness): the claim theorem applied to the concrete mixed inputs
`f[x: Int32, 2]` (no `:=`: a call keeping only the expression item `2`) and
`g[x: Int32, 2] := x` (with `:=`: a definition keeping only the parameter
item `x: Int32`). -/
theorem c7_witness :
    (parseFunctionOrCall 100 (ParserState.new "f[x: Int32, 2]")).1
      = Option.some (.functionCall (.identifier "f") [.number 2]) ∧
    (parseFunctionOrCall 100 (ParserState.new "g[x: Int32, 2] := x")).1
      = Option.some (.functionDefinition "g" [⟨"x", .int32⟩] (.identifier "x")) := by
  constructor
  · have h := (c7_function_or_call_disambiguation 99 (ParserState.new "f[x: Int32, 2]") _ "f"
      [.parameter ⟨"x", .int32⟩, .expression (.number 2)] rfl rfl rfl).2.1 (by decide)
    exact congrArg Prod.fst h
  · have h := (c7_function_or_call_disambiguation 99 (ParserState.new "g[x: Int32, 2] := x") _ "g"
      [.parameter ⟨"x", .int32⟩, .expression (.number 2)] rfl rfl rfl).1
      (.identifier "x") _ rfl rfl
    exact congrArg Prod.fst h

end W
